import Mathlib

/-!
Shallow embedding of the live voice session hook (`useLiveVoiceSession`) and its
AudioWorklet processor: the real-time session core of the repository.  Pure
functions of the source are translated as Lean functions; the stateful hook is
translated as explicit state passing over `SessionState`, with externally
observable side effects (transport closes, sends, media teardown, playback
scheduling) recorded as an `Action` trace.  JavaScript numbers used as times
are modelled as rationals, byte counters as naturals.
-/

set_option maxHeartbeats 1000000

namespace LiveVoice

/-- `TARGET_SAMPLE_RATE` constant of the source. -/
def TARGET_SAMPLE_RATE : ℕ := 24000

/-- `MAX_LOG_ENTRIES` constant of the source. -/
def MAX_LOG_ENTRIES : ℕ := 200

/-- `PCM_FRAME_SIZE` constant of the source (PCM16 bytes per sample). -/
def PCM_FRAME_SIZE : ℕ := 2

/-- `LiveVoiceSessionStatus`: 'idle' | 'connecting' | 'ready' | 'stopping' | 'error'. -/
inductive SessionStatus
  | idle
  | connecting
  | ready
  | stopping
  | error
deriving DecidableEq

/-- `AvatarStreamState`: 'idle' | 'connecting' | 'ready'. -/
inductive AvatarStreamState
  | idle
  | connecting
  | ready
deriving DecidableEq

/-- `LogLevel`: 'info' | 'warn' | 'error'. -/
inductive LogLevel
  | info
  | warn
  | error
deriving DecidableEq

/-- `LiveVoiceLogEntry` (the `Date.now()` timestamp is not modelled: it is an
opaque wall-clock read that no control flow depends on). -/
structure LogEntry where
  level : LogLevel
  message : String
deriving DecidableEq

/-- `LiveVoiceMetrics`. -/
structure LiveVoiceMetrics where
  sentAudioBytes : ℕ
  receivedAudioBytes : ℕ
  responseCount : ℕ
deriving DecidableEq

/-- `Partial<LiveVoiceMetrics>` as passed to `updateMetrics`; absent fields are
`none` (the source reads them with `?? 0`). -/
structure MetricsDelta where
  sentAudioBytes : Option ℕ := none
  receivedAudioBytes : Option ℕ := none
  responseCount : Option ℕ := none
deriving DecidableEq

/-- `'azure_semantic_vad' | 'semantic_vad'`. -/
inductive SemanticVadMode
  | azure_semantic_vad
  | semantic_vad
deriving DecidableEq

/-- `LiveVoiceSessionConfig`. -/
structure LiveVoiceSessionConfig where
  modelId : String
  voiceId : String
  instructions : Option String := none
  language : Option String := none
  phraseList : Option (List String) := none
  semanticVad : SemanticVadMode
  enableEou : Bool
  agentId : Option String := none
  customSpeechEndpoint : Option String := none
  avatarId : Option String := none
deriving DecidableEq

/-- `DataView.getInt16(offset, true)` on a byte buffer: reads two bytes
little-endian and sign-extends; `none` models the `RangeError` thrown when
`offset + 2` exceeds the buffer length. -/
def getInt16LE (bytes : List ℕ) (offset : ℕ) : Option ℤ :=
  match bytes.get? offset, bytes.get? (offset + 1) with
  | some b0, some b1 =>
      let u := b0 + 256 * b1
      some (if u < 32768 then (u : ℤ) else (u : ℤ) - 65536)
  | _, _ => none

/-- The loop of `decodePcm16`: `for (i = 0; i < length; i++)` where
`length = buffer.byteLength / PCM_FRAME_SIZE` is a JavaScript float division
(so for odd byte lengths the bound is `m + 1/2` and the loop still enters at
`i = m`, where the two-byte `getInt16` read runs past the end of the buffer and
throws).  `Except.error` models the thrown `RangeError`. -/
def decodePcm16Aux (bytes : List ℕ) (i : ℕ) : Except String (List ℚ) :=
  if h : (i : ℚ) < (bytes.length : ℚ) / 2 then
    match getInt16LE bytes (PCM_FRAME_SIZE * i) with
    | none => Except.error "RangeError: offset is outside the bounds of the DataView"
    | some v =>
        match decodePcm16Aux bytes (i + 1) with
        | Except.error e => Except.error e
        | Except.ok rest => Except.ok ((v : ℚ) / 32768 :: rest)
  else
    Except.ok []
termination_by bytes.length - i
decreasing_by
  have h2 : (i : ℚ) * 2 < (bytes.length : ℚ) := (lt_div_iff₀ (by norm_num)).mp h
  have h3 : i * 2 < bytes.length := by exact_mod_cast h2
  omega

/-- `decodePcm16`: decodes a little-endian PCM16 buffer to float samples
(`view.getInt16(i * PCM_FRAME_SIZE, true) / 0x8000`). -/
def decodePcm16 (bytes : List ℕ) : Except String (List ℚ) :=
  decodePcm16Aux bytes 0

/-- `resetMetrics`: the base metrics object. -/
def resetMetrics : LiveVoiceMetrics :=
  { sentAudioBytes := 0, receivedAudioBytes := 0, responseCount := 0 }

/-- `updateMetrics`: adds each provided delta (`?? 0`) to the previous value. -/
def updateMetrics (m : LiveVoiceMetrics) (delta : MetricsDelta) : LiveVoiceMetrics :=
  { sentAudioBytes := m.sentAudioBytes + delta.sentAudioBytes.getD 0,
    receivedAudioBytes := m.receivedAudioBytes + delta.receivedAudioBytes.getD 0,
    responseCount := m.responseCount + delta.responseCount.getD 0 }

/-- Componentwise order on the metrics triple. -/
def MetricsLe (m n : LiveVoiceMetrics) : Prop :=
  m.sentAudioBytes ≤ n.sentAudioBytes ∧
    m.receivedAudioBytes ≤ n.receivedAudioBytes ∧
    m.responseCount ≤ n.responseCount

/-- JavaScript truthiness of an optional string (`undefined`, `null` and the
empty string are falsy). -/
def strTruthy : Option String → Bool
  | none => false
  | some s => s ≠ ""

/-- `AvatarIceServerPayload`: `urls?: string | string[]`, plus optional
credentials. -/
structure AvatarIceServerPayload where
  urls : Option (String ⊕ List String) := none
  username : Option String := none
  credential : Option String := none
deriving DecidableEq

/-- `AvatarOfferDescriptionPayload`. -/
structure AvatarOfferDescriptionPayload where
  type : Option String := none
  sdp : Option String := none
deriving DecidableEq

/-- `AvatarSessionInfoPayload` (extends `AvatarOfferEventPayload`, which is the
`offer`/`iceServers` part; `handleAvatarOffer` accepts either shape, so the
extended structure is used for both).  List elements are `Option` because the
mapping code guards each entry with `if (!server) return null`. -/
structure AvatarSessionInfoPayload where
  offer : Option AvatarOfferDescriptionPayload := none
  iceServers : Option (List (Option AvatarIceServerPayload)) := none
  character : Option String := none
  style : Option String := none
  state : Option String := none
deriving DecidableEq

/-- `RTCIceCandidateInit` as built by `handleAvatarIceCandidate`. -/
structure RTCIceCandidateInit where
  candidate : String
  sdpMid : Option String := none
  sdpMLineIndex : Option ℤ := none
deriving DecidableEq

/-- `AvatarIceCandidatePayload`; `sdpMid`/`sdpMLineIndex` may be null. -/
structure AvatarIceCandidatePayload where
  candidate : String
  sdpMid : Option String := none
  sdpMLineIndex : Option ℤ := none
deriving DecidableEq

/-- `RTCIceServer` as assembled from an `AvatarIceServerPayload`. -/
structure RTCIceServer where
  urls : List String
  username : Option String := none
  credential : Option String := none
deriving DecidableEq

/-- `Array.isArray(rawUrls) ? rawUrls.map(toString) : rawUrls ? [rawUrls.toString()] : []`. -/
def normalizeIceUrls : Option (String ⊕ List String) → List String
  | some (Sum.inr urls) => urls
  | some (Sum.inl url) => [url]
  | none => []

/-- The `payload.iceServers.map(...).filter(...)` mapping shared by
`handleAvatarSessionUpdated` and `handleAvatarOffer`: drops null entries and
entries without urls; credentials are attached only when truthy. -/
def mapAvatarIceServers (servers : List (Option AvatarIceServerPayload)) :
    List RTCIceServer :=
  servers.filterMap fun server =>
    match server with
    | none => none
    | some server =>
        let urls := normalizeIceUrls server.urls
        if urls = [] then none
        else
          some { urls := urls,
                 username := if strTruthy server.username then server.username else none,
                 credential := if strTruthy server.credential then server.credential else none }

/-- The `{ answer: { type, sdp } }` shape received by `handleAvatarAnswer`. -/
structure AvatarAnswerDescription where
  type : String
  sdp : String
deriving DecidableEq

/-- The `Record<string, unknown>` carried by a `session.event` envelope: every
field any handler reads, each optional.  A cast such as
`event.data as AvatarOfferEventPayload` is a field projection on this
structure. -/
structure ServerEventData where
  sessionId : Option String := none
  itemId : Option String := none
  avatar : Option AvatarSessionInfoPayload := none
  offer : Option AvatarOfferDescriptionPayload := none
  iceServers : Option (List (Option AvatarIceServerPayload)) := none
  answer : Option AvatarAnswerDescription := none
  candidate : Option String := none
  sdpMid : Option String := none
  sdpMLineIndex : Option ℤ := none
deriving DecidableEq

/-- The argument of `handleServerEvent`:
`{ event?: string; message?: string; data?: Record<string, unknown> }`. -/
structure ServerEventMsg where
  event : Option String := none
  message : Option String := none
  data : Option ServerEventData := none
deriving DecidableEq

/-- `event.data as unknown as AvatarIceCandidatePayload`: the data record
reinterpreted as a candidate payload.  An absent `candidate` field behaves like
the empty string: both fail the `!payload.candidate` truthiness guard. -/
def ServerEventData.asIceCandidatePayload (d : ServerEventData) :
    AvatarIceCandidatePayload :=
  { candidate := d.candidate.getD "",
    sdpMid := d.sdpMid,
    sdpMLineIndex := d.sdpMLineIndex }

/-- `event.data as AvatarOfferEventPayload` for the `avatar.offer` arm. -/
def ServerEventData.asAvatarOfferPayload (d : ServerEventData) :
    AvatarSessionInfoPayload :=
  { offer := d.offer, iceServers := d.iceServers }

/-- The model of an `RTCPeerConnection` as far as the session core drives it:
the configuration it was constructed with, whether the remote/local
descriptions have been applied, and the list of ICE candidates passed to
`addIceCandidate`, in call order. -/
structure PeerConnection where
  configIceServers : List RTCIceServer := []
  remoteDescriptionSet : Bool := false
  localDescriptionSet : Bool := false
  applied : List RTCIceCandidateInit := []
deriving DecidableEq

/-- `WebSocket.CONNECTING` / `WebSocket.OPEN`; a closed or absent socket is
modelled as `none` at the `SessionState` level (the hook nulls `wsRef`
whenever it closes the socket). -/
inductive WsReadyState
  | CONNECTING
  | OPEN
deriving DecidableEq

/-- The JSON messages the hook sends on the control channel. -/
structure SessionConfigurePayload where
  modelId : String
  voiceId : String
  instructions : Option String
  language : Option String
  phraseList : List String
  semanticVad : SemanticVadMode
  enableEou : Bool
  agentId : Option String
  customSpeechEndpoint : Option String
  avatarId : Option String
deriving DecidableEq

/-- Outbound JSON envelopes (`ws.send(JSON.stringify(...))` call sites). -/
inductive WireOut
  | sessionConfigure (payload : SessionConfigurePayload)
  | avatarClientOffer (descriptionType : String) (sdp : String)
  | avatarIceCandidate (candidate : String) (sdpMid : Option String)
      (sdpMLineIndex : Option ℤ)
  | avatarAnswer (sdp : String) (descriptionType : String)
deriving DecidableEq

/-- The payload assembled in `ws.onopen` (`config.phraseList ?? []`). -/
def sessionConfigurePayload (config : LiveVoiceSessionConfig) :
    SessionConfigurePayload :=
  { modelId := config.modelId,
    voiceId := config.voiceId,
    instructions := config.instructions,
    language := config.language,
    phraseList := config.phraseList.getD [],
    semanticVad := config.semanticVad,
    enableEou := config.enableEou,
    agentId := config.agentId,
    customSpeechEndpoint := config.customSpeechEndpoint,
    avatarId := config.avatarId }

/-- Externally observable side effects of the hook, in program order. -/
inductive Action
  | wsClose (code : ℕ)
  | wsSendJson (msg : WireOut)
  | wsSendBinary (byteLength : ℕ)
  | closeAvatarPeerConnection
  | stopAvatarRemoteTracks
  | disconnectWorkletNode
  | signalStreamingDisabled
  | signalStreamingEnabled
  | releaseSourceNode
  | releaseGainNode
  | stopPlaybackNode
  | stopMicTracks
  | closeAudioContext
  | startPlayback (startAt : ℚ) (duration : ℚ) (byteLength : ℕ)
deriving DecidableEq

/-- The mutable state of one `useLiveVoiceSession` instance: the React state
values and every `useRef` cell.  Resource refs that the claims only need
presence/absence of are booleans; `playbackNodes` is the size of the in-flight
playback node set; `workletStreaming` is the `streamingEnabled` flag inside the
AudioWorklet processor (updated by `port.postMessage` in program order). -/
structure SessionState where
  status : SessionStatus
  error : Option String := none
  logs : List LogEntry := []
  metrics : LiveVoiceMetrics := resetMetrics
  avatarState : AvatarStreamState := .idle
  sessionConfig : LiveVoiceSessionConfig
  ws : Option WsReadyState := none
  audioContext : Bool := false
  mediaStream : Bool := false
  sourceNode : Bool := false
  workletNode : Bool := false
  inhaleGainNode : Bool := false
  playbackNodes : ℕ := 0
  playbackCursor : ℚ := 0
  streamingEnabled : Bool := false
  workletStreaming : Bool := false
  closing : Bool := false
  avatarPeerConnection : Option PeerConnection := none
  avatarRemoteStream : Bool := false
  avatarElement : Bool := false
  avatarCandidateQueue : List RTCIceCandidateInit := []
deriving DecidableEq

/-- `appendLog`: appends an entry and keeps only the last `MAX_LOG_ENTRIES`. -/
def appendLog (s : SessionState) (level : LogLevel) (message : String) :
    SessionState :=
  let next := s.logs ++ [{ level := level, message := message }]
  { s with logs := if next.length > MAX_LOG_ENTRIES then
      next.drop (next.length - MAX_LOG_ENTRIES) else next }

/-- A run of `appendLog` calls (used for per-item logging loops). -/
def appendLogs (s : SessionState) (entries : List (LogLevel × String)) :
    SessionState :=
  entries.foldl (fun acc e => appendLog acc e.1 e.2) s

/-- `cleanupAvatarConnection`: nulls the peer-connection ref and clears the
pending candidate queue first, then (when a connection existed) detaches its
handlers, stops sender/receiver tracks and transceivers and closes it, stops
the remote stream's tracks, detaches the media from the video element
(DOM-only; no action recorded), and resets the avatar state to idle. -/
def cleanupAvatarConnection (s : SessionState) : SessionState × List Action :=
  let pc := s.avatarPeerConnection
  let s := { s with avatarPeerConnection := none, avatarCandidateQueue := [] }
  let pcActs : List Action :=
    match pc with
    | some _ => [.closeAvatarPeerConnection]
    | none => []
  let streamActs : List Action :=
    if s.avatarRemoteStream then [.stopAvatarRemoteTracks] else []
  let s := { s with avatarRemoteStream := false }
  let s := { s with avatarState := .idle }
  (s, pcActs ++ streamActs)

/-- `cleanupAudioGraph`: avatar teardown first, then the capture/playback
graph — streaming flag off, worklet node disconnected and told to stop
streaming, source and gain nodes disconnected, in-flight playback nodes
stopped and the cursor reset, microphone tracks stopped, audio context
closed. -/
def cleanupAudioGraph (s : SessionState) : SessionState × List Action :=
  let (s, avatarActs) := cleanupAvatarConnection s
  let s := { s with streamingEnabled := false }
  let workletActs : List Action :=
    if s.workletNode then [.disconnectWorkletNode, .signalStreamingDisabled] else []
  let s := if s.workletNode then
      { s with workletNode := false, workletStreaming := false } else s
  let sourceActs : List Action := if s.sourceNode then [.releaseSourceNode] else []
  let s := { s with sourceNode := false }
  let gainActs : List Action := if s.inhaleGainNode then [.releaseGainNode] else []
  let s := { s with inhaleGainNode := false }
  let playbackActs : List Action := List.replicate s.playbackNodes .stopPlaybackNode
  let s := { s with playbackNodes := 0, playbackCursor := 0 }
  let micActs : List Action := if s.mediaStream then [.stopMicTracks] else []
  let s := { s with mediaStream := false }
  let ctxActs : List Action := if s.audioContext then [.closeAudioContext] else []
  let s := { s with audioContext := false }
  (s, avatarActs ++ workletActs ++ sourceActs ++ gainActs ++ playbackActs ++
    micActs ++ ctxActs)

/-- `handleFatalError`: logs and surfaces the error, disables streaming, closes
the transport under the `closing` guard, runs the audio-graph cleanup, and
lands in `error` (not `idle`). -/
def handleFatalError (s : SessionState) (message : String) :
    SessionState × List Action :=
  let detail := if message = "" then "セッションエラー" else message
  let s := appendLog s .error detail
  let s := { s with error := some detail, streamingEnabled := false }
  let s := { s with closing := true }
  let closeActs : List Action :=
    match s.ws with
    | some _ => [.wsClose 1011]
    | none => []
  let s := { s with ws := none }
  let (s, cleanActs) := cleanupAudioGraph s
  let s := { s with status := .error }
  let s := { s with closing := false }
  (s, closeActs ++ cleanActs)

/-- `stop`: a no-op while `closing` is already set; otherwise marks the
session `stopping`, closes the transport (if open or connecting), runs the
audio-graph cleanup and lands in `idle` with `closing` cleared. -/
def stop (s : SessionState) : SessionState × List Action :=
  if s.closing then (s, [])
  else
    let s := { s with closing := true }
    let s := { s with status := .stopping }
    let closeActs : List Action :=
      match s.ws with
      | some _ => [.wsClose 1000]
      | none => []
    let s := { s with ws := none }
    let (s, cleanActs) := cleanupAudioGraph s
    let s := { s with status := .idle }
    let s := { s with closing := false }
    let s := appendLog s .info "セッションを終了しました"
    (s, closeActs ++ cleanActs)

/-- `handleServerAudio`: decodes an incoming PCM16 buffer and schedules it at
`max(audioContext.currentTime, playbackCursor)`, advancing the cursor by the
buffer's duration and adding the received byte count to the metrics.
`now` is `audioContext.currentTime`.  (The suspended-context resume branch
only logs and fires an async resume; it is not modelled.  A decode exception
for an odd-length buffer propagates out of the handler before any state
change.) -/
def handleServerAudio (s : SessionState) (now : ℚ) (buffer : List ℕ) :
    SessionState × List Action :=
  if !s.audioContext then
    (appendLog s .warn "AudioContext が存在しません", [])
  else
    match decodePcm16 buffer with
    | .error _ => (s, [])
    | .ok floatData =>
      if floatData.length = 0 then
        (appendLog s .warn "音声データのデコードに失敗しました", [])
      else
        let s := appendLog s .info ("音声データ受信: " ++ toString buffer.length ++
          "バイト, " ++ toString floatData.length ++ "サンプル")
        let duration : ℚ := (floatData.length : ℚ) / (TARGET_SAMPLE_RATE : ℚ)
        let startAt : ℚ := max now s.playbackCursor
        let s := { s with playbackCursor := startAt + duration }
        let s := appendLog s .info "音声再生開始"
        let s := { s with playbackNodes := s.playbackNodes + 1 }
        let s := { s with
          metrics := updateMetrics s.metrics ({ receivedAudioBytes := some buffer.length }) }
        (s, [.startPlayback startAt duration buffer.length])

/-- Environment-chosen outcomes of the asynchronous WebRTC calls a handler
performs: whether the negotiation try-block throws, whether a direct
`addIceCandidate` throws, and the SDP strings the browser generates. -/
structure RtcOutcome where
  negotiationFails : Bool := false
  addIceCandidateFails : Bool := false
  offerSdp : String := ""
  answerSdp : String := ""
deriving DecidableEq

/-- `handleAvatarIceCandidate`: ignores falsy payloads, applies the candidate
directly when a peer connection exists (logging a warning and dropping it if
`addIceCandidate` throws), and otherwise appends it to the pending queue. -/
def handleAvatarIceCandidate (s : SessionState)
    (payload : Option AvatarIceCandidatePayload) (rtc : RtcOutcome) :
    SessionState × List Action :=
  match payload with
  | none => (s, [])
  | some payload =>
    if payload.candidate = "" then (s, [])
    else
      let candidateInit : RTCIceCandidateInit :=
        { candidate := payload.candidate,
          sdpMid := payload.sdpMid,
          sdpMLineIndex := payload.sdpMLineIndex }
      match s.avatarPeerConnection with
      | some pc =>
          if rtc.addIceCandidateFails then
            (appendLog s .warn "アバター ICE candidate の追加に失敗しました", [])
          else
            ({ s with
                avatarPeerConnection := some ({ pc with applied := pc.applied ++ [candidateInit] }) },
              [])
      | none =>
          ({ s with avatarCandidateQueue :=
              s.avatarCandidateQueue ++ [candidateInit] }, [])

/-- `handleAvatarSessionUpdated` (client-initiated negotiation): requires ICE
servers and an open socket, tears down any previous avatar connection, creates
a fresh peer connection with receive-only transceivers, creates and applies a
local offer, waits (bounded) for ICE gathering, and sends the final local
description as `avatar.client_offer`; on any exception in that try-block it
logs the error and sets the avatar state to idle (the peer connection ref is
left in place). -/
def handleAvatarSessionUpdated (s : SessionState)
    (payload : AvatarSessionInfoPayload) (rtc : RtcOutcome) :
    SessionState × List Action :=
  match payload.iceServers with
  | none => (appendLog s .warn "ICEサーバが提供されていません", [])
  | some servers =>
    if servers.length = 0 then
      (appendLog s .warn "ICEサーバが提供されていません", [])
    else
      let s := appendLog s .info "クライアント側で WebRTC 接続を開始します"
      let s := appendLog s .info ("ICEサーバ数: " ++ toString servers.length)
      if s.ws ≠ some .OPEN then
        (appendLog s .warn "WebSocket が開いていません", [])
      else
        let (s, cleanupActs) := cleanupAvatarConnection s
        let s := { s with avatarState := .connecting }
        let iceServers := mapAvatarIceServers servers
        let s := appendLog s .info ("ICEサーバ設定: " ++ toString iceServers.length ++ "個のサーバ")
        let s := appendLogs s (iceServers.map fun server =>
          (LogLevel.info, "  ICEサーバ: " ++ String.intercalate ", " server.urls))
        let s := { s with
          avatarPeerConnection := some ({ configIceServers := iceServers }) }
        let s := appendLog s .info "RTCPeerConnection を作成しました"
        let s := { s with avatarRemoteStream := true }
        if rtc.negotiationFails then
          let s := appendLog s .error "Offer 作成エラー"
          let s := { s with avatarState := .idle }
          (s, cleanupActs)
        else
          let s := { s with
            avatarPeerConnection := some ({ configIceServers := iceServers, localDescriptionSet := true }) }
          let s := appendLog s .info "サーバーに offer を送信します"
          (s, cleanupActs ++ [.wsSendJson (.avatarClientOffer "offer" rtc.offerSdp)])

/-- `handleAvatarAnswer` (client-initiated negotiation, remote answer): with no
peer connection it only warns; otherwise it applies the answer as the remote
description and flushes the queued candidates in order (clearing the queue);
on an exception — including a missing `data.answer` — it logs the error and
sets the avatar state to idle, leaving the queue untouched. -/
def handleAvatarAnswer (s : SessionState)
    (answer : Option AvatarAnswerDescription) (rtc : RtcOutcome) :
    SessionState × List Action :=
  match s.avatarPeerConnection with
  | none => (appendLog s .warn "PeerConnection が存在しません", [])
  | some pc =>
    match answer with
    | none =>
        let s := appendLog s .error "Answer 処理エラー"
        let s := { s with avatarState := .idle }
        (s, [])
    | some answer =>
      if rtc.negotiationFails then
        let s := appendLog s .error "Answer 処理エラー"
        let s := { s with avatarState := .idle }
        (s, [])
      else
        let s := appendLog s .info ("Azure から answer を受信: type=" ++ answer.type)
        let pc := { pc with remoteDescriptionSet := true }
        let s := appendLog s .info "Remote description 設定完了"
        let flushed := s.avatarCandidateQueue
        let s :=
          if flushed.length > 0 then
            let s := appendLog s .info
              ("キューから " ++ toString flushed.length ++ " 個の ICE candidate を追加します")
            { s with
              avatarPeerConnection := some ({ pc with applied := pc.applied ++ flushed }),
              avatarCandidateQueue := [] }
          else
            { s with avatarPeerConnection := some pc }
        (s, [])

/-- The ICE-configuration logging block of `handleAvatarOffer`: logs the server
count and one line per server when servers are configured, and a warning
otherwise.  Touches only the log ring. -/
def logOfferIceConfig (s : SessionState) (iceServers : List RTCIceServer) :
    SessionState :=
  if iceServers.length > 0 then
    appendLogs
      (appendLog s .info ("ICEサーバ設定: " ++ toString iceServers.length ++ "個のサーバ"))
      (iceServers.map fun server =>
        (LogLevel.info, "  ICEサーバ: " ++ String.intercalate ", " server.urls))
  else appendLog s .warn "ICEサーバが設定されていません"

/-- `handleAvatarOffer` (remote-initiated negotiation): requires a truthy
offer SDP and an open socket, tears down any previous avatar connection,
creates a fresh peer connection, applies the offer as the remote description,
flushes (`splice(0)`) the pending candidate queue, creates and applies a local
answer and sends it as `avatar.answer`; on an exception in that try-block it
logs the error and runs the avatar cleanup. -/
def handleAvatarOffer (s : SessionState)
    (payload : Option AvatarSessionInfoPayload) (rtc : RtcOutcome) :
    SessionState × List Action :=
  match payload with
  | none => (appendLog s .warn "アバターの WebRTC オファーが無効です", [])
  | some payload =>
    match payload.offer with
    | none => (appendLog s .warn "アバターの WebRTC オファーが無効です", [])
    | some offer =>
      if !strTruthy offer.sdp then
        (appendLog s .warn "アバターの WebRTC オファーが無効です", [])
      else
        let s := appendLog s .info "WebRTC Offer を受信"
        let s := appendLog s .info ("ICEサーバ数: " ++
          toString ((payload.iceServers.map List.length).getD 0))
        if s.ws ≠ some .OPEN then
          (appendLog s .warn "アバターのオファーを受信しましたが WebSocket が開いていません", [])
        else
          let (s, cleanupActs) := cleanupAvatarConnection s
          let s := { s with avatarState := .connecting }
          let iceServers :=
            match payload.iceServers with
            | some servers => mapAvatarIceServers servers
            | none => []
          let s := logOfferIceConfig s iceServers
          let s := { s with
            avatarPeerConnection := some ({ configIceServers := iceServers }) }
          let s := appendLog s .info "RTCPeerConnection を作成しました"
          let s := { s with avatarRemoteStream := true }
          if rtc.negotiationFails then
            let s := appendLog s .error "アバター WebRTC 設定に失敗しました"
            let (s, failActs) := cleanupAvatarConnection s
            (s, cleanupActs ++ failActs)
          else
            let s := appendLog s .info "setRemoteDescription 完了"
            let pendingCandidates := s.avatarCandidateQueue
            let s := { s with avatarCandidateQueue := [] }
            let s := appendLog s .info ("保留中の ICE candidate を追加: " ++
              toString pendingCandidates.length ++ "個")
            let answeredPc : PeerConnection :=
              { configIceServers := iceServers, remoteDescriptionSet := true,
                localDescriptionSet := true, applied := pendingCandidates }
            let s := { s with avatarPeerConnection := some answeredPc }
            let s := appendLog s .info "アバターの WebRTC アンサーを送信しました"
            (s, cleanupActs ++ [.wsSendJson (.avatarAnswer rtc.answerSdp "answer")])

/-- The `session.updated` arm of `handleServerEvent`: logs the session id and,
when the payload carries avatar metadata with ICE servers and the avatar is
not already ready, starts the client-initiated negotiation. -/
def sessionUpdatedArm (s : SessionState) (data : Option ServerEventData)
    (rtc : RtcOutcome) : SessionState × List Action :=
  let s := appendLog s .info ("セッション開始: " ++
    ((data.bind (·.sessionId)).getD "unknown"))
  match data.bind (·.avatar) with
  | some avatarPayload =>
      if avatarPayload.iceServers.isSome ∧ s.avatarState ≠ .ready then
        handleAvatarSessionUpdated s avatarPayload rtc
      else (s, [])
  | none => (s, [])

/-- The `input.speech_started` arm (barge-in): stops every in-flight playback
node and resets the playback cursor to the current time. -/
def speechStartedArm (s : SessionState) (now : ℚ) : SessionState × List Action :=
  let s := appendLog s .info "ユーザー発話を検知しました"
  let acts := List.replicate s.playbackNodes Action.stopPlaybackNode
  let s := { s with playbackCursor := if s.audioContext then now else 0 }
  (s, acts)

/-- The `response.done` arm: bumps the response counter. -/
def responseDoneArm (s : SessionState) : SessionState × List Action :=
  ({ s with metrics := updateMetrics s.metrics ({ responseCount := some 1 }) }, [])

/-- The `avatar.stream_started` arm. -/
def streamStartedArm (s : SessionState) : SessionState × List Action :=
  let s := appendLog s .info "アバター映像ストリームが開始されました"
  ({ s with avatarState := .ready }, [])

/-- The `avatar.stream_stopped` arm: marks the avatar idle and tears the
avatar connection down. -/
def streamStoppedArm (s : SessionState) : SessionState × List Action :=
  let s := appendLog s .warn "アバター映像ストリームが停止しました"
  let s := { s with avatarState := .idle }
  cleanupAvatarConnection s

/-- The `avatar.ready` arm. -/
def avatarReadyArm (s : SessionState) : SessionState × List Action :=
  let s := appendLog s .info "アバターの準備が完了しました"
  ({ s with avatarState := .ready }, [])

/-- The `avatar.ice_candidate` arm: dispatches only when the envelope carries
data. -/
def iceCandidateArm (s : SessionState) (data : Option ServerEventData)
    (rtc : RtcOutcome) : SessionState × List Action :=
  match data with
  | some d => handleAvatarIceCandidate s (some d.asIceCandidatePayload) rtc
  | none => (s, [])

/-- The default arm of the `switch (event.event)`: logs the unrecognized kind
(or, failing that, the message) at severity `info`, and does nothing for a
fully empty envelope. -/
def unknownEventArm (s : SessionState) (event : ServerEventMsg) :
    SessionState × List Action :=
  match event.event with
  | some e =>
      if e ≠ "" then (appendLog s .info ("イベント: " ++ e), [])
      else
        match event.message with
        | some m => if m ≠ "" then (appendLog s .info m, []) else (s, [])
        | none => (s, [])
  | none =>
      match event.message with
      | some m => if m ≠ "" then (appendLog s .info m, []) else (s, [])
      | none => (s, [])

/-- `handleServerEvent`: the `switch (event.event)` dispatcher for
`session.event` envelopes.  `now` is `audioContext.currentTime` at dispatch
time.  An unrecognized event kind falls to the default arm, which logs the
kind (or the message) at severity `info` and does nothing else. -/
def handleServerEvent (s : SessionState) (event : ServerEventMsg) (now : ℚ)
    (rtc : RtcOutcome) : SessionState × List Action :=
  let ev := event.event
  if ev = some "session.updated" then
    sessionUpdatedArm s event.data rtc
  else if ev = some "input.speech_started" then
    speechStartedArm s now
  else if ev = some "input.speech_stopped" then
    (appendLog s .info "ユーザー発話の終了を検知しました", [])
  else if ev = some "response.audio_done" then
    (appendLog s .info "アシスタント音声の送出が完了しました", [])
  else if ev = some "response.done" then
    responseDoneArm s
  else if ev = some "conversation.item_created" then
    (appendLog s .info ("会話アイテム追加: " ++
      ((event.data.bind (·.itemId)).getD "unknown")), [])
  else if ev = some "avatar.offer" then
    handleAvatarOffer s (event.data.map (·.asAvatarOfferPayload)) rtc
  else if ev = some "avatar.answer" then
    handleAvatarAnswer s (event.data.bind (·.answer)) rtc
  else if ev = some "avatar.ice_candidate" then
    iceCandidateArm s event.data rtc
  else if ev = some "avatar.stream_started" then
    streamStartedArm s
  else if ev = some "avatar.stream_stopped" then
    streamStoppedArm s
  else if ev = some "avatar.ready" then
    avatarReadyArm s
  else if ev = some "avatar.answer.sent" then
    (appendLog s .info "アバター WebRTC アンサーをバックエンドへ送信しました", [])
  else
    unknownEventArm s event

/-- Inbound JSON messages after `JSON.parse`, classified by `parsed.type`. -/
inductive WireIn
  | sessionReady
  | sessionLog (level : Option LogLevel) (message : String)
  | sessionEvent (event : ServerEventMsg)
  | sessionError (message : Option String)
  | unknownType (msgType : String)
deriving DecidableEq

/-- Environment events delivered to one session on the cooperative event
queue: socket lifecycle events, inbound messages (with the current audio time
and the environment's WebRTC outcomes attached), worklet audio frames, locally
gathered ICE candidates, and user-initiated `stop()` calls.  (`start()` is a
separate operation: it constructs a new transport.) -/
inductive Ev
  | wsOpen
  | wsText (msg : WireIn) (now : ℚ) (rtc : RtcOutcome)
  | wsBinary (bytes : List ℕ) (now : ℚ)
  | wsErrorEvt
  | wsCloseEvt (code : ℕ)
  | workletFrame (byteLength : ℕ)
  | pcIceCandidate (candidate : RTCIceCandidateInit)
  | stopCall
deriving DecidableEq

/-- One step of the session under an environment event, following the
registered handlers (`ws.onopen`, `ws.onmessage`, `ws.onerror`, `ws.onclose`,
`workletNode.port.onmessage`, `peerConnection.onicecandidate`, `stop`).
Messages and the open event are delivered only while the corresponding socket
state holds; a worklet frame reaches the socket only if the processor-side
streaming flag is set and the socket is open. -/
def onWsOpen (s : SessionState) : SessionState × List Action :=
  match s.ws with
  | some .CONNECTING =>
      let s := appendLog s .info "バックエンドと接続しました"
      let payload := sessionConfigurePayload s.sessionConfig
      let s := appendLog s .info "セッション設定を送信"
      let s := { s with ws := some .OPEN }
      (s, [.wsSendJson (.sessionConfigure payload)])
  | _ => (s, [])

/-- The `session.ready` arm of `ws.onmessage`: enables streaming (telling the
worklet processor when it exists) and moves the session to `ready`. -/
def sessionReadyArm (s : SessionState) : SessionState × List Action :=
  let s := appendLog s .info "Voice Live セッションが開始されました"
  let s := { s with streamingEnabled := true }
  let (s, acts) :=
    if s.workletNode then
      ({ s with workletStreaming := true }, [Action.signalStreamingEnabled])
    else (s, ([] : List Action))
  let s := { s with status := .ready }
  (s, acts)

/-- The `session.error` arm of `ws.onmessage`: disables streaming (telling the
worklet when it exists) and runs the fatal-error teardown. -/
def sessionErrorArm (s : SessionState) (message : Option String) :
    SessionState × List Action :=
  let s := { s with streamingEnabled := false }
  let (s, acts) :=
    if s.workletNode then
      ({ s with workletStreaming := false }, [Action.signalStreamingDisabled])
    else (s, ([] : List Action))
  let (s, fatalActs) := handleFatalError s (message.getD "セッションエラー")
  (s, acts ++ fatalActs)

/-- `ws.onmessage` for a text frame. -/
def onWsText (s : SessionState) (msg : WireIn) (now : ℚ) (rtc : RtcOutcome) :
    SessionState × List Action :=
  match msg with
  | .sessionReady => sessionReadyArm s
  | .sessionLog level message => (appendLog s (level.getD .info) message, [])
  | .sessionEvent event => handleServerEvent s event now rtc
  | .sessionError message => sessionErrorArm s message
  | .unknownType t => (appendLog s .warn ("未知のメッセージ: " ++ t), [])

/-- `ws.onclose`: nulls the socket ref and disables streaming, then — unless
the status is already `error` or the close was self-initiated (`closing`
set) — logs an unexpected disconnect when `ready`, cleans up and lands in
`idle`. -/
def onWsClose (s : SessionState) : SessionState × List Action :=
  let s := { s with ws := none, streamingEnabled := false }
  if s.status = .error then (s, [])
  else if s.closing then (s, [])
  else
    let s := if s.status = .ready then appendLog s .warn "サーバーが切断しました" else s
    let (s, acts) := cleanupAudioGraph s
    let s := { s with status := .idle }
    (s, acts)

/-- `ws.onerror`: fatal unless already in `error` or self-closing. -/
def onWsError (s : SessionState) : SessionState × List Action :=
  if s.status = .error then (s, [])
  else if s.closing then (s, [])
  else
    let s := { s with streamingEnabled := false }
    handleFatalError s "WebSocket エラーが発生しました"

/-- The worklet `audioData` relay (`workletNode.port.onmessage`): the worklet
posts a frame only while its streaming flag is set, and the main thread
forwards it only while the socket is open, bumping the sent-bytes metric. -/
def onWorkletFrame (s : SessionState) (byteLength : ℕ) :
    SessionState × List Action :=
  if s.workletStreaming ∧ s.ws = some .OPEN then
    ({ s with
        metrics := updateMetrics s.metrics ({ sentAudioBytes := some byteLength }) },
      [.wsSendBinary byteLength])
  else (s, [])

/-- `peerConnection.onicecandidate` for a locally gathered candidate: forwards
it to the relay while the socket is open. -/
def onPcIceCandidate (s : SessionState) (candidate : RTCIceCandidateInit) :
    SessionState × List Action :=
  match s.avatarPeerConnection with
  | some _ =>
      if s.ws = some .OPEN then
        (s, [.wsSendJson (.avatarIceCandidate candidate.candidate
          candidate.sdpMid candidate.sdpMLineIndex)])
      else (s, [])
  | none => (s, [])

def stepEv (s : SessionState) (ev : Ev) : SessionState × List Action :=
  match ev with
  | .wsOpen => onWsOpen s
  | .wsText msg now rtc =>
      if s.ws ≠ some .OPEN then (s, []) else onWsText s msg now rtc
  | .wsBinary bytes now =>
      if s.ws ≠ some .OPEN then (s, [])
      else
        let s := appendLog s .info ("バイナリデータ受信: " ++
          toString bytes.length ++ "バイト")
        handleServerAudio s now bytes
  | .wsErrorEvt => onWsError s
  | .wsCloseEvt _ => onWsClose s
  | .workletFrame byteLength => onWorkletFrame s byteLength
  | .pcIceCandidate candidate => onPcIceCandidate s candidate
  | .stopCall => stop s

/-- `start`: the synchronous prefix plus the successful asynchronous
initialisation of the source's `start(config)` — implicit `stop` when already
connecting or ready, flag and metric resets, transition to `connecting`,
acquisition of the audio context, worklet module, microphone and node graph,
and construction of the WebSocket (whose open event is still pending). -/
def start (s : SessionState) (config : LiveVoiceSessionConfig) :
    SessionState × List Action :=
  let (s, stopActs) :=
    if s.status = .connecting ∨ s.status = .ready then stop s else (s, [])
  let s := { s with closing := false, streamingEnabled := false,
                    metrics := resetMetrics, error := none,
                    avatarCandidateQueue := [], avatarState := .idle,
                    status := .connecting, sessionConfig := config }
  let s := appendLog s .info "Live Voice セッションに接続中…"
  let s := { s with audioContext := true, mediaStream := true, sourceNode := true,
                    workletNode := true, workletStreaming := false,
                    inhaleGainNode := true, ws := some .CONNECTING }
  (s, stopActs)

/-- Runs a list of environment events, accumulating the action trace. -/
def run (s : SessionState) (evs : List Ev) : SessionState × List Action :=
  match evs with
  | [] => (s, [])
  | ev :: rest =>
      let p := stepEv s ev
      let q := run p.1 rest
      (q.1, p.2 ++ q.2)

/-- Whether an action is a message sent on the control channel. -/
def Action.isSend : Action → Bool
  | .wsSendJson _ => true
  | .wsSendBinary _ => true
  | _ => false

/-- The sub-trace of messages sent on the control channel, in order. -/
def sends (l : List Action) : List Action := l.filter Action.isSend

/-- Whether an action is the `session.configure` handshake send. -/
def Action.isConfigure : Action → Bool
  | .wsSendJson (.sessionConfigure _) => true
  | _ => false

/-- `occursBefore l a b`: some occurrence of `a` strictly precedes some
occurrence of `b` in `l`. -/
def occursBefore : List Action → Action → Action → Bool
  | [], _, _ => false
  | x :: xs, a, b => (x == a && xs.contains b) || occursBefore xs a b

/-- A sample session configuration for concrete evaluations. -/
def sampleConfig : LiveVoiceSessionConfig :=
  { modelId := "m1", voiceId := "v1", semanticVad := .azure_semantic_vad,
    enableEou := false }

/-- A fully live session: transport open, capture graph up, streaming, two
playback buffers in flight, an avatar negotiation in progress. -/
def liveState : SessionState :=
  { status := .ready, sessionConfig := sampleConfig, ws := some .OPEN,
    audioContext := true, mediaStream := true, sourceNode := true,
    workletNode := true, inhaleGainNode := true, playbackNodes := 2,
    playbackCursor := 5, streamingEnabled := true, workletStreaming := true,
    avatarState := .connecting, avatarPeerConnection := some ({ }),
    avatarRemoteStream := true }

/-- The state left behind by a fatal error (as `handleFatalError` leaves it):
status `error`, transport and resources gone, `closing` cleared. -/
def errorState : SessionState :=
  { status := .error, sessionConfig := sampleConfig, ws := none,
    error := some "セッションエラー", closing := false }

/-- Bytes a single action sends on the channel as binary audio. -/
def Action.sentBytes : Action → ℕ
  | .wsSendBinary n => n
  | _ => 0

/-- Bytes a single action schedules for playback. -/
def Action.recvBytes : Action → ℕ
  | .startPlayback _ _ n => n
  | _ => 0

/-- Total binary audio bytes sent in a trace. -/
def sentBytes (l : List Action) : ℕ := (l.map Action.sentBytes).sum

/-- Total playback bytes received in a trace. -/
def recvBytes (l : List Action) : ℕ := (l.map Action.recvBytes).sum

/-- Actions that are neither the configuration handshake nor audio-byte
carriers. -/
def Action.neutral : Action → Bool
  | .wsSendJson (.sessionConfigure _) => false
  | .wsSendBinary _ => false
  | .startPlayback _ _ _ => false
  | _ => true


/-- Actions that neither send on the channel nor schedule playback. -/
def Action.quiet : Action → Bool
  | .wsSendJson _ => false
  | .wsSendBinary _ => false
  | .startPlayback _ _ _ => false
  | _ => true

/-- A trace whose first channel send (if any) is the configuration handshake,
and in which no later send is a configuration handshake. -/
def ConfigFirst (tr : List Action) : Prop :=
  match sends tr with
  | [] => True
  | a :: rest => a.isConfigure = true ∧ ∀ b ∈ rest, b.isConfigure = false

/-- Invariant tying the socket state to the accumulated trace: nothing has
been sent while the socket is still connecting, and an open socket means the
handshake is already on the wire. -/
def HandshakeInv (s : SessionState) (tr : List Action) : Prop :=
  ConfigFirst tr ∧
  (s.ws = some .CONNECTING → sends tr = []) ∧
  (s.ws = some .OPEN → sends tr ≠ [])

/-- The event kinds the `handleServerEvent` switch recognizes. -/
def knownEventKinds : List String :=
  ["session.updated", "input.speech_started", "input.speech_stopped",
   "response.audio_done", "response.done", "conversation.item_created",
   "avatar.offer", "avatar.answer", "avatar.ice_candidate",
   "avatar.stream_started", "avatar.stream_stopped", "avatar.ready",
   "avatar.answer.sent"]

/-- The session state right before avatar negotiation: live audio session, no
peer connection yet, empty pending queue. -/
def preNegotiationState : SessionState :=
  { liveState with
      avatarPeerConnection := none, avatarRemoteStream := false,
      avatarState := .idle, avatarCandidateQueue := [] }

/-- An `avatar.ice_candidate` session event arriving before negotiation. -/
def earlyIceCandidateEvent : Ev :=
  .wsText (.sessionEvent
    ({ event := some "avatar.ice_candidate",
       data := some ({ candidate := some "cand1" }) })) 0 ({})

/-- The data record of a remote `avatar.offer` event. -/
def avatarOfferEventData : ServerEventData :=
  { offer := some ({ type := some "offer", sdp := some "v=0 sdp" }),
    iceServers := some [some ({ urls := some (Sum.inr ["turn:x"]) })] }

/-- An `avatar.offer` session event starting remote-initiated negotiation. -/
def avatarOfferEvent : Ev :=
  .wsText (.sessionEvent
    ({ event := some "avatar.offer", data := some avatarOfferEventData })) 0 ({})

/-- A handler result that leaves the transport, status, closing flag and byte
metrics alone (the response counter may only grow) and emits only neutral
actions. -/
def Frame (s : SessionState) (r : SessionState × List Action) : Prop :=
  r.1.ws = s.ws ∧ r.1.status = s.status ∧ r.1.closing = s.closing ∧
  r.1.metrics.sentAudioBytes = s.metrics.sentAudioBytes ∧
  r.1.metrics.receivedAudioBytes = s.metrics.receivedAudioBytes ∧
  s.metrics.responseCount ≤ r.1.metrics.responseCount ∧
  r.2.all Action.neutral = true

@[simp] lemma appendLog_status (s : SessionState) (l : LogLevel) (m : String) :
    (appendLog s l m).status = s.status := by
  simp [appendLog]

@[simp] lemma appendLog_error (s : SessionState) (l : LogLevel) (m : String) :
    (appendLog s l m).error = s.error := by
  simp [appendLog]

@[simp] lemma appendLog_metrics (s : SessionState) (l : LogLevel) (m : String) :
    (appendLog s l m).metrics = s.metrics := by
  simp [appendLog]

@[simp] lemma appendLog_avatarState (s : SessionState) (l : LogLevel) (m : String) :
    (appendLog s l m).avatarState = s.avatarState := by
  simp [appendLog]

@[simp] lemma appendLog_sessionConfig (s : SessionState) (l : LogLevel) (m : String) :
    (appendLog s l m).sessionConfig = s.sessionConfig := by
  simp [appendLog]

@[simp] lemma appendLog_ws (s : SessionState) (l : LogLevel) (m : String) :
    (appendLog s l m).ws = s.ws := by
  simp [appendLog]

@[simp] lemma appendLog_audioContext (s : SessionState) (l : LogLevel) (m : String) :
    (appendLog s l m).audioContext = s.audioContext := by
  simp [appendLog]

@[simp] lemma appendLog_mediaStream (s : SessionState) (l : LogLevel) (m : String) :
    (appendLog s l m).mediaStream = s.mediaStream := by
  simp [appendLog]

@[simp] lemma appendLog_sourceNode (s : SessionState) (l : LogLevel) (m : String) :
    (appendLog s l m).sourceNode = s.sourceNode := by
  simp [appendLog]

@[simp] lemma appendLog_workletNode (s : SessionState) (l : LogLevel) (m : String) :
    (appendLog s l m).workletNode = s.workletNode := by
  simp [appendLog]

@[simp] lemma appendLog_inhaleGainNode (s : SessionState) (l : LogLevel) (m : String) :
    (appendLog s l m).inhaleGainNode = s.inhaleGainNode := by
  simp [appendLog]

@[simp] lemma appendLog_playbackNodes (s : SessionState) (l : LogLevel) (m : String) :
    (appendLog s l m).playbackNodes = s.playbackNodes := by
  simp [appendLog]

@[simp] lemma appendLog_playbackCursor (s : SessionState) (l : LogLevel) (m : String) :
    (appendLog s l m).playbackCursor = s.playbackCursor := by
  simp [appendLog]

@[simp] lemma appendLog_streamingEnabled (s : SessionState) (l : LogLevel) (m : String) :
    (appendLog s l m).streamingEnabled = s.streamingEnabled := by
  simp [appendLog]

@[simp] lemma appendLog_workletStreaming (s : SessionState) (l : LogLevel) (m : String) :
    (appendLog s l m).workletStreaming = s.workletStreaming := by
  simp [appendLog]

@[simp] lemma appendLog_closing (s : SessionState) (l : LogLevel) (m : String) :
    (appendLog s l m).closing = s.closing := by
  simp [appendLog]

@[simp] lemma appendLog_avatarPeerConnection (s : SessionState) (l : LogLevel) (m : String) :
    (appendLog s l m).avatarPeerConnection = s.avatarPeerConnection := by
  simp [appendLog]

@[simp] lemma appendLog_avatarRemoteStream (s : SessionState) (l : LogLevel) (m : String) :
    (appendLog s l m).avatarRemoteStream = s.avatarRemoteStream := by
  simp [appendLog]

@[simp] lemma appendLog_avatarElement (s : SessionState) (l : LogLevel) (m : String) :
    (appendLog s l m).avatarElement = s.avatarElement := by
  simp [appendLog]

@[simp] lemma appendLog_avatarCandidateQueue (s : SessionState) (l : LogLevel) (m : String) :
    (appendLog s l m).avatarCandidateQueue = s.avatarCandidateQueue := by
  simp [appendLog]

lemma appendLogs_eta (entries : List (LogLevel × String)) :
    ∀ s : SessionState, ∃ ls, appendLogs s entries = { s with logs := ls } := by
  induction entries with
  | nil => intro s; exact ⟨s.logs, rfl⟩
  | cons e rest ih =>
      intro s
      obtain ⟨ls, h⟩ := ih (appendLog s e.1 e.2)
      refine ⟨ls, ?_⟩
      rw [appendLogs] at h ⊢
      simp only [List.foldl_cons]
      rw [h]
      simp [appendLog]

@[simp] lemma appendLogs_status (s : SessionState) (entries : List (LogLevel × String)) :
    (appendLogs s entries).status = s.status := by
  obtain ⟨ls, h⟩ := appendLogs_eta entries s
  rw [h]

@[simp] lemma appendLogs_error (s : SessionState) (entries : List (LogLevel × String)) :
    (appendLogs s entries).error = s.error := by
  obtain ⟨ls, h⟩ := appendLogs_eta entries s
  rw [h]

@[simp] lemma appendLogs_metrics (s : SessionState) (entries : List (LogLevel × String)) :
    (appendLogs s entries).metrics = s.metrics := by
  obtain ⟨ls, h⟩ := appendLogs_eta entries s
  rw [h]

@[simp] lemma appendLogs_avatarState (s : SessionState) (entries : List (LogLevel × String)) :
    (appendLogs s entries).avatarState = s.avatarState := by
  obtain ⟨ls, h⟩ := appendLogs_eta entries s
  rw [h]

@[simp] lemma appendLogs_sessionConfig (s : SessionState) (entries : List (LogLevel × String)) :
    (appendLogs s entries).sessionConfig = s.sessionConfig := by
  obtain ⟨ls, h⟩ := appendLogs_eta entries s
  rw [h]

@[simp] lemma appendLogs_ws (s : SessionState) (entries : List (LogLevel × String)) :
    (appendLogs s entries).ws = s.ws := by
  obtain ⟨ls, h⟩ := appendLogs_eta entries s
  rw [h]

@[simp] lemma appendLogs_audioContext (s : SessionState) (entries : List (LogLevel × String)) :
    (appendLogs s entries).audioContext = s.audioContext := by
  obtain ⟨ls, h⟩ := appendLogs_eta entries s
  rw [h]

@[simp] lemma appendLogs_mediaStream (s : SessionState) (entries : List (LogLevel × String)) :
    (appendLogs s entries).mediaStream = s.mediaStream := by
  obtain ⟨ls, h⟩ := appendLogs_eta entries s
  rw [h]

@[simp] lemma appendLogs_sourceNode (s : SessionState) (entries : List (LogLevel × String)) :
    (appendLogs s entries).sourceNode = s.sourceNode := by
  obtain ⟨ls, h⟩ := appendLogs_eta entries s
  rw [h]

@[simp] lemma appendLogs_workletNode (s : SessionState) (entries : List (LogLevel × String)) :
    (appendLogs s entries).workletNode = s.workletNode := by
  obtain ⟨ls, h⟩ := appendLogs_eta entries s
  rw [h]

@[simp] lemma appendLogs_inhaleGainNode (s : SessionState) (entries : List (LogLevel × String)) :
    (appendLogs s entries).inhaleGainNode = s.inhaleGainNode := by
  obtain ⟨ls, h⟩ := appendLogs_eta entries s
  rw [h]

@[simp] lemma appendLogs_playbackNodes (s : SessionState) (entries : List (LogLevel × String)) :
    (appendLogs s entries).playbackNodes = s.playbackNodes := by
  obtain ⟨ls, h⟩ := appendLogs_eta entries s
  rw [h]

@[simp] lemma appendLogs_playbackCursor (s : SessionState) (entries : List (LogLevel × String)) :
    (appendLogs s entries).playbackCursor = s.playbackCursor := by
  obtain ⟨ls, h⟩ := appendLogs_eta entries s
  rw [h]

@[simp] lemma appendLogs_streamingEnabled (s : SessionState) (entries : List (LogLevel × String)) :
    (appendLogs s entries).streamingEnabled = s.streamingEnabled := by
  obtain ⟨ls, h⟩ := appendLogs_eta entries s
  rw [h]

@[simp] lemma appendLogs_workletStreaming (s : SessionState) (entries : List (LogLevel × String)) :
    (appendLogs s entries).workletStreaming = s.workletStreaming := by
  obtain ⟨ls, h⟩ := appendLogs_eta entries s
  rw [h]

@[simp] lemma appendLogs_closing (s : SessionState) (entries : List (LogLevel × String)) :
    (appendLogs s entries).closing = s.closing := by
  obtain ⟨ls, h⟩ := appendLogs_eta entries s
  rw [h]

@[simp] lemma appendLogs_avatarPeerConnection (s : SessionState) (entries : List (LogLevel × String)) :
    (appendLogs s entries).avatarPeerConnection = s.avatarPeerConnection := by
  obtain ⟨ls, h⟩ := appendLogs_eta entries s
  rw [h]

@[simp] lemma appendLogs_avatarRemoteStream (s : SessionState) (entries : List (LogLevel × String)) :
    (appendLogs s entries).avatarRemoteStream = s.avatarRemoteStream := by
  obtain ⟨ls, h⟩ := appendLogs_eta entries s
  rw [h]

@[simp] lemma appendLogs_avatarElement (s : SessionState) (entries : List (LogLevel × String)) :
    (appendLogs s entries).avatarElement = s.avatarElement := by
  obtain ⟨ls, h⟩ := appendLogs_eta entries s
  rw [h]

@[simp] lemma appendLogs_avatarCandidateQueue (s : SessionState) (entries : List (LogLevel × String)) :
    (appendLogs s entries).avatarCandidateQueue = s.avatarCandidateQueue := by
  obtain ⟨ls, h⟩ := appendLogs_eta entries s
  rw [h]

@[simp] lemma logOfferIceConfig_status (s : SessionState) (iceServers : List RTCIceServer) :
    (logOfferIceConfig s iceServers).status = s.status := by
  rw [logOfferIceConfig]
  split_ifs <;> simp

@[simp] lemma logOfferIceConfig_error (s : SessionState) (iceServers : List RTCIceServer) :
    (logOfferIceConfig s iceServers).error = s.error := by
  rw [logOfferIceConfig]
  split_ifs <;> simp

@[simp] lemma logOfferIceConfig_metrics (s : SessionState) (iceServers : List RTCIceServer) :
    (logOfferIceConfig s iceServers).metrics = s.metrics := by
  rw [logOfferIceConfig]
  split_ifs <;> simp

@[simp] lemma logOfferIceConfig_avatarState (s : SessionState) (iceServers : List RTCIceServer) :
    (logOfferIceConfig s iceServers).avatarState = s.avatarState := by
  rw [logOfferIceConfig]
  split_ifs <;> simp

@[simp] lemma logOfferIceConfig_sessionConfig (s : SessionState) (iceServers : List RTCIceServer) :
    (logOfferIceConfig s iceServers).sessionConfig = s.sessionConfig := by
  rw [logOfferIceConfig]
  split_ifs <;> simp

@[simp] lemma logOfferIceConfig_ws (s : SessionState) (iceServers : List RTCIceServer) :
    (logOfferIceConfig s iceServers).ws = s.ws := by
  rw [logOfferIceConfig]
  split_ifs <;> simp

@[simp] lemma logOfferIceConfig_audioContext (s : SessionState) (iceServers : List RTCIceServer) :
    (logOfferIceConfig s iceServers).audioContext = s.audioContext := by
  rw [logOfferIceConfig]
  split_ifs <;> simp

@[simp] lemma logOfferIceConfig_mediaStream (s : SessionState) (iceServers : List RTCIceServer) :
    (logOfferIceConfig s iceServers).mediaStream = s.mediaStream := by
  rw [logOfferIceConfig]
  split_ifs <;> simp

@[simp] lemma logOfferIceConfig_sourceNode (s : SessionState) (iceServers : List RTCIceServer) :
    (logOfferIceConfig s iceServers).sourceNode = s.sourceNode := by
  rw [logOfferIceConfig]
  split_ifs <;> simp

@[simp] lemma logOfferIceConfig_workletNode (s : SessionState) (iceServers : List RTCIceServer) :
    (logOfferIceConfig s iceServers).workletNode = s.workletNode := by
  rw [logOfferIceConfig]
  split_ifs <;> simp

@[simp] lemma logOfferIceConfig_inhaleGainNode (s : SessionState) (iceServers : List RTCIceServer) :
    (logOfferIceConfig s iceServers).inhaleGainNode = s.inhaleGainNode := by
  rw [logOfferIceConfig]
  split_ifs <;> simp

@[simp] lemma logOfferIceConfig_playbackNodes (s : SessionState) (iceServers : List RTCIceServer) :
    (logOfferIceConfig s iceServers).playbackNodes = s.playbackNodes := by
  rw [logOfferIceConfig]
  split_ifs <;> simp

@[simp] lemma logOfferIceConfig_playbackCursor (s : SessionState) (iceServers : List RTCIceServer) :
    (logOfferIceConfig s iceServers).playbackCursor = s.playbackCursor := by
  rw [logOfferIceConfig]
  split_ifs <;> simp

@[simp] lemma logOfferIceConfig_streamingEnabled (s : SessionState) (iceServers : List RTCIceServer) :
    (logOfferIceConfig s iceServers).streamingEnabled = s.streamingEnabled := by
  rw [logOfferIceConfig]
  split_ifs <;> simp

@[simp] lemma logOfferIceConfig_workletStreaming (s : SessionState) (iceServers : List RTCIceServer) :
    (logOfferIceConfig s iceServers).workletStreaming = s.workletStreaming := by
  rw [logOfferIceConfig]
  split_ifs <;> simp

@[simp] lemma logOfferIceConfig_closing (s : SessionState) (iceServers : List RTCIceServer) :
    (logOfferIceConfig s iceServers).closing = s.closing := by
  rw [logOfferIceConfig]
  split_ifs <;> simp

@[simp] lemma logOfferIceConfig_avatarPeerConnection (s : SessionState) (iceServers : List RTCIceServer) :
    (logOfferIceConfig s iceServers).avatarPeerConnection = s.avatarPeerConnection := by
  rw [logOfferIceConfig]
  split_ifs <;> simp

@[simp] lemma logOfferIceConfig_avatarRemoteStream (s : SessionState) (iceServers : List RTCIceServer) :
    (logOfferIceConfig s iceServers).avatarRemoteStream = s.avatarRemoteStream := by
  rw [logOfferIceConfig]
  split_ifs <;> simp

@[simp] lemma logOfferIceConfig_avatarElement (s : SessionState) (iceServers : List RTCIceServer) :
    (logOfferIceConfig s iceServers).avatarElement = s.avatarElement := by
  rw [logOfferIceConfig]
  split_ifs <;> simp

@[simp] lemma logOfferIceConfig_avatarCandidateQueue (s : SessionState) (iceServers : List RTCIceServer) :
    (logOfferIceConfig s iceServers).avatarCandidateQueue = s.avatarCandidateQueue := by
  rw [logOfferIceConfig]
  split_ifs <;> simp

lemma cleanupAvatarConnection_eq (s : SessionState) :
    cleanupAvatarConnection s =
      ({ s with avatarPeerConnection := none, avatarCandidateQueue := [],
                avatarRemoteStream := false, avatarState := .idle },
        (match s.avatarPeerConnection with
          | some _ => [Action.closeAvatarPeerConnection]
          | none => []) ++
        (if s.avatarRemoteStream then [Action.stopAvatarRemoteTracks] else [])) := by
  simp [cleanupAvatarConnection]

lemma cleanupAudioGraph_eq (s : SessionState) :
    cleanupAudioGraph s =
      ({ s with avatarPeerConnection := none, avatarCandidateQueue := [],
                avatarRemoteStream := false, avatarState := .idle,
                streamingEnabled := false, workletNode := false,
                workletStreaming := if s.workletNode then false else s.workletStreaming,
                sourceNode := false, inhaleGainNode := false,
                playbackNodes := 0, playbackCursor := 0,
                mediaStream := false, audioContext := false },
        (match s.avatarPeerConnection with
          | some _ => [Action.closeAvatarPeerConnection]
          | none => []) ++
        (if s.avatarRemoteStream then [Action.stopAvatarRemoteTracks] else []) ++
        (if s.workletNode then
          [Action.disconnectWorkletNode, Action.signalStreamingDisabled] else []) ++
        (if s.sourceNode then [Action.releaseSourceNode] else []) ++
        (if s.inhaleGainNode then [Action.releaseGainNode] else []) ++
        List.replicate s.playbackNodes Action.stopPlaybackNode ++
        (if s.mediaStream then [Action.stopMicTracks] else []) ++
        (if s.audioContext then [Action.closeAudioContext] else [])) := by
  cases hpc : s.avatarPeerConnection <;>
    cases hrs : s.avatarRemoteStream <;>
      cases hwn : s.workletNode <;>
        cases hsn : s.sourceNode <;>
          cases hgn : s.inhaleGainNode <;>
            cases hms : s.mediaStream <;>
              cases hac : s.audioContext <;>
                simp [cleanupAudioGraph, cleanupAvatarConnection,
                  hpc, hrs, hwn, hsn, hgn, hms, hac]

lemma Action.neutral_spec (a : Action) (h : a.neutral = true) :
    a.isConfigure = false ∧ a.sentBytes = 0 ∧ a.recvBytes = 0 := by
  cases a <;>
    simp_all [Action.neutral, Action.isConfigure, Action.sentBytes, Action.recvBytes]
  rename_i msg
  cases msg <;> simp_all [Action.neutral, Action.isConfigure]

lemma all_neutral_spec (l : List Action) (h : l.all Action.neutral = true) :
    sentBytes l = 0 ∧ recvBytes l = 0 ∧ ∀ a ∈ l, a.isConfigure = false := by
  induction l with
  | nil => simp [sentBytes, recvBytes]
  | cons x xs ih =>
      rw [List.all_cons, Bool.and_eq_true] at h
      obtain ⟨h1, h2, h3⟩ := ih h.2
      obtain ⟨c1, c2, c3⟩ := Action.neutral_spec x h.1
      refine ⟨?_, ?_, ?_⟩
      · simp [sentBytes, c2] at h1 ⊢
        simp [h1]
      · simp [recvBytes, c3] at h2 ⊢
        simp [h2]
      · intro a ha
        rcases List.mem_cons.mp ha with rfl | ha
        · exact c1
        · exact h3 a ha

lemma handleAvatarIceCandidate_frame (s : SessionState)
    (p : Option AvatarIceCandidatePayload) (rtc : RtcOutcome) :
    (handleAvatarIceCandidate s p rtc).1.ws = s.ws ∧
    (handleAvatarIceCandidate s p rtc).1.status = s.status ∧
    (handleAvatarIceCandidate s p rtc).1.metrics = s.metrics ∧
    (handleAvatarIceCandidate s p rtc).1.closing = s.closing ∧
    (handleAvatarIceCandidate s p rtc).1.avatarState = s.avatarState ∧
    (handleAvatarIceCandidate s p rtc).2 = [] := by
  rcases p with _ | p
  · simp [handleAvatarIceCandidate]
  · rcases hpc : s.avatarPeerConnection with _ | pc <;>
      simp [handleAvatarIceCandidate, hpc] <;>
        split_ifs <;> simp

lemma handleAvatarAnswer_frame (s : SessionState)
    (answer : Option AvatarAnswerDescription) (rtc : RtcOutcome) :
    (handleAvatarAnswer s answer rtc).1.ws = s.ws ∧
    (handleAvatarAnswer s answer rtc).1.status = s.status ∧
    (handleAvatarAnswer s answer rtc).1.metrics = s.metrics ∧
    (handleAvatarAnswer s answer rtc).1.closing = s.closing ∧
    (handleAvatarAnswer s answer rtc).2 = [] := by
  rcases hpc : s.avatarPeerConnection with _ | pc <;> rcases answer with _ | answer <;>
    simp [handleAvatarAnswer, hpc] <;>
      split_ifs <;> simp

lemma handleAvatarSessionUpdated_frame (s : SessionState)
    (p : AvatarSessionInfoPayload) (rtc : RtcOutcome) :
    (handleAvatarSessionUpdated s p rtc).1.ws = s.ws ∧
    (handleAvatarSessionUpdated s p rtc).1.status = s.status ∧
    (handleAvatarSessionUpdated s p rtc).1.metrics = s.metrics ∧
    (handleAvatarSessionUpdated s p rtc).1.closing = s.closing ∧
    (handleAvatarSessionUpdated s p rtc).2.all Action.neutral = true := by
  rcases hsrv : p.iceServers with _ | servers
  · simp [handleAvatarSessionUpdated, hsrv]
  · simp only [handleAvatarSessionUpdated, hsrv]
    rcases hpc : s.avatarPeerConnection with _ | pc <;>
      split_ifs <;>
        simp_all [cleanupAvatarConnection_eq, Action.neutral]

lemma handleAvatarOffer_frame (s : SessionState)
    (p : Option AvatarSessionInfoPayload) (rtc : RtcOutcome) :
    (handleAvatarOffer s p rtc).1.ws = s.ws ∧
    (handleAvatarOffer s p rtc).1.status = s.status ∧
    (handleAvatarOffer s p rtc).1.metrics = s.metrics ∧
    (handleAvatarOffer s p rtc).1.closing = s.closing ∧
    (handleAvatarOffer s p rtc).2.all Action.neutral = true := by
  rcases p with _ | p
  · simp [handleAvatarOffer]
  · rcases hoff : p.offer with _ | offer
    · simp [handleAvatarOffer, hoff]
    · rcases hpc : s.avatarPeerConnection with _ | pc <;>
        simp only [handleAvatarOffer, hoff, cleanupAvatarConnection_eq] <;>
          split_ifs <;>
            simp_all [Action.neutral]

lemma frame_pure_log (s : SessionState) (l : LogLevel) (m : String) :
    Frame s (appendLog s l m, []) := by
  simp [Frame]

lemma frame_id (s : SessionState) : Frame s (s, []) := by
  simp [Frame]

lemma frame_of_metrics_eq {s : SessionState} {r : SessionState × List Action}
    (h1 : r.1.ws = s.ws) (h2 : r.1.status = s.status) (h3 : r.1.closing = s.closing)
    (h4 : r.1.metrics = s.metrics) (h5 : r.2.all Action.neutral = true) :
    Frame s r := by
  refine ⟨h1, h2, h3, by rw [h4], by rw [h4], by rw [h4], h5⟩

lemma sessionUpdatedArm_frame (s : SessionState) (data : Option ServerEventData)
    (rtc : RtcOutcome) : Frame s (sessionUpdatedArm s data rtc) := by
  rcases h : (data.bind fun d => d.avatar) with _ | ap <;>
    simp only [sessionUpdatedArm, h]
  · exact frame_pure_log ..
  · split_ifs with hc
    · obtain ⟨f1, f2, f3, f4, f5⟩ := handleAvatarSessionUpdated_frame
        (appendLog s .info ("セッション開始: " ++ ((data.bind fun d => d.sessionId).getD "unknown")))
        ap rtc
      exact frame_of_metrics_eq (by simp [f1]) (by simp [f2]) (by simp [f4])
        (by simp [f3]) f5
    · exact frame_pure_log ..

lemma speechStartedArm_frame (s : SessionState) (now : ℚ) :
    Frame s (speechStartedArm s now) := by
  rw [speechStartedArm]
  refine ⟨by simp, by simp, by simp, by simp, by simp, by simp, ?_⟩
  simp only [List.all_eq_true]
  intro a ha
  rw [List.eq_of_mem_replicate ha]
  rfl

lemma responseDoneArm_frame (s : SessionState) : Frame s (responseDoneArm s) := by
  simp [responseDoneArm, Frame, updateMetrics]

lemma streamStartedArm_frame (s : SessionState) : Frame s (streamStartedArm s) := by
  simp [streamStartedArm, Frame]

lemma streamStoppedArm_frame (s : SessionState) : Frame s (streamStoppedArm s) := by
  rcases hpc : s.avatarPeerConnection with _ | pc <;>
    simp [streamStoppedArm, Frame, cleanupAvatarConnection_eq, hpc, Action.neutral]

lemma avatarReadyArm_frame (s : SessionState) : Frame s (avatarReadyArm s) := by
  simp [avatarReadyArm, Frame]

lemma iceCandidateArm_frame (s : SessionState) (data : Option ServerEventData)
    (rtc : RtcOutcome) : Frame s (iceCandidateArm s data rtc) := by
  rcases data with _ | d <;> simp only [iceCandidateArm]
  · exact frame_id s
  · obtain ⟨f1, f2, f3, f4, f5, f6⟩ := handleAvatarIceCandidate_frame s (some d.asIceCandidatePayload) rtc
    exact frame_of_metrics_eq f1 f2 f4 f3 (by simp [f6])

lemma unknownEventArm_frame (s : SessionState) (event : ServerEventMsg) :
    Frame s (unknownEventArm s event) := by
  rcases he : event.event with _ | e <;> rcases hm : event.message with _ | m <;>
    simp only [unknownEventArm, he, hm] <;>
      try split_ifs
  all_goals first
    | exact frame_id s
    | exact frame_pure_log ..

lemma handleAvatarOffer_Frame (s : SessionState) (p : Option AvatarSessionInfoPayload)
    (rtc : RtcOutcome) : Frame s (handleAvatarOffer s p rtc) := by
  obtain ⟨f1, f2, f3, f4, f5⟩ := handleAvatarOffer_frame s p rtc
  exact frame_of_metrics_eq f1 f2 f4 f3 f5

lemma handleAvatarAnswer_Frame (s : SessionState) (answer : Option AvatarAnswerDescription)
    (rtc : RtcOutcome) : Frame s (handleAvatarAnswer s answer rtc) := by
  obtain ⟨f1, f2, f3, f4, f5⟩ := handleAvatarAnswer_frame s answer rtc
  exact frame_of_metrics_eq f1 f2 f4 f3 (by simp [f5])

lemma handleServerEvent_frame (s : SessionState) (event : ServerEventMsg)
    (now : ℚ) (rtc : RtcOutcome) : Frame s (handleServerEvent s event now rtc) := by
  rw [handleServerEvent]
  by_cases h1 : event.event = some "session.updated"
  · rw [if_pos h1]; exact sessionUpdatedArm_frame ..
  rw [if_neg h1]
  by_cases h2 : event.event = some "input.speech_started"
  · rw [if_pos h2]; exact speechStartedArm_frame ..
  rw [if_neg h2]
  by_cases h3 : event.event = some "input.speech_stopped"
  · rw [if_pos h3]; exact frame_pure_log ..
  rw [if_neg h3]
  by_cases h4 : event.event = some "response.audio_done"
  · rw [if_pos h4]; exact frame_pure_log ..
  rw [if_neg h4]
  by_cases h5 : event.event = some "response.done"
  · rw [if_pos h5]; exact responseDoneArm_frame ..
  rw [if_neg h5]
  by_cases h6 : event.event = some "conversation.item_created"
  · rw [if_pos h6]; exact frame_pure_log ..
  rw [if_neg h6]
  by_cases h7 : event.event = some "avatar.offer"
  · rw [if_pos h7]; exact handleAvatarOffer_Frame ..
  rw [if_neg h7]
  by_cases h8 : event.event = some "avatar.answer"
  · rw [if_pos h8]; exact handleAvatarAnswer_Frame ..
  rw [if_neg h8]
  by_cases h9 : event.event = some "avatar.ice_candidate"
  · rw [if_pos h9]; exact iceCandidateArm_frame ..
  rw [if_neg h9]
  by_cases h10 : event.event = some "avatar.stream_started"
  · rw [if_pos h10]; exact streamStartedArm_frame ..
  rw [if_neg h10]
  by_cases h11 : event.event = some "avatar.stream_stopped"
  · rw [if_pos h11]; exact streamStoppedArm_frame ..
  rw [if_neg h11]
  by_cases h12 : event.event = some "avatar.ready"
  · rw [if_pos h12]; exact avatarReadyArm_frame ..
  rw [if_neg h12]
  by_cases h13 : event.event = some "avatar.answer.sent"
  · rw [if_pos h13]; exact frame_pure_log ..
  rw [if_neg h13]
  exact unknownEventArm_frame ..

lemma Action.quiet_spec (a : Action) (h : a.quiet = true) :
    a.isSend = false ∧ a.isConfigure = false ∧ a.sentBytes = 0 ∧ a.recvBytes = 0 := by
  cases a <;>
    simp_all [Action.quiet, Action.isSend, Action.isConfigure, Action.sentBytes,
      Action.recvBytes]

lemma sends_append (l₁ l₂ : List Action) :
    sends (l₁ ++ l₂) = sends l₁ ++ sends l₂ :=
  List.filter_append ..

lemma sends_eq_nil_of_all_quiet (l : List Action) (h : l.all Action.quiet = true) :
    sends l = [] := by
  induction l with
  | nil => rfl
  | cons x xs ih =>
      rw [List.all_cons, Bool.and_eq_true] at h
      obtain ⟨h1, -, -, -⟩ := Action.quiet_spec x h.1
      simp [sends, List.filter_cons, h1]
      have := ih h.2
      simpa [sends] using this

lemma cleanupAudioGraph_quiet (s : SessionState) :
    (cleanupAudioGraph s).2.all Action.quiet = true := by
  rw [cleanupAudioGraph_eq]
  simp only [List.all_append, Bool.and_eq_true]
  refine ⟨⟨⟨⟨⟨⟨⟨?_, ?_⟩, ?_⟩, ?_⟩, ?_⟩, ?_⟩, ?_⟩, ?_⟩ <;>
    first
      | (rcases s.avatarPeerConnection <;> rfl)
      | (split_ifs <;> rfl)
      | (rw [List.all_eq_true]; intro a ha; rw [List.eq_of_mem_replicate ha]; rfl)

lemma cleanupAudioGraph_metrics (s : SessionState) :
    (cleanupAudioGraph s).1.metrics = s.metrics := by
  rw [cleanupAudioGraph_eq]

lemma stop_closing (s : SessionState) (h : s.closing = true) : stop s = (s, []) := by
  simp [stop, h]

lemma stop_frame (s : SessionState) (h : s.closing = false) :
    (stop s).1.ws = none ∧ (stop s).1.status = .idle ∧
    (stop s).1.closing = false ∧ (stop s).1.metrics = s.metrics ∧
    (stop s).2.all Action.quiet = true := by
  rw [stop, if_neg (by simp [h])]
  rcases hws : s.ws with _ | w <;>
    rcases hpc : s.avatarPeerConnection with _ | pc <;>
      refine ⟨?_, ?_, ?_, ?_, ?_⟩ <;>
        simp [cleanupAudioGraph_eq, List.all_append, Action.quiet, hws, hpc,
          List.all_eq_true, List.mem_replicate] <;>
        (intro x _ hx; rcases hx with rfl | rfl <;> rfl)


lemma handleFatalError_frame (s : SessionState) (msg : String) :
    (handleFatalError s msg).1.ws = none ∧
    (handleFatalError s msg).1.status = .error ∧
    (handleFatalError s msg).1.closing = false ∧
    (handleFatalError s msg).1.metrics = s.metrics ∧
    (handleFatalError s msg).2.all Action.quiet = true := by
  rw [handleFatalError]
  rcases hws : s.ws with _ | w <;>
    rcases hpc : s.avatarPeerConnection with _ | pc <;>
      refine ⟨?_, ?_, ?_, ?_, ?_⟩ <;>
        simp [cleanupAudioGraph_eq, List.all_append, Action.quiet, hws, hpc,
          List.all_eq_true, List.mem_replicate] <;>
        (intro x _ hx; rcases hx with rfl | rfl <;> rfl)

lemma onWsClose_frame (s : SessionState) :
    (onWsClose s).1.ws = none ∧
    (onWsClose s).1.closing = s.closing ∧
    (onWsClose s).1.metrics = s.metrics ∧
    (onWsClose s).2.all Action.quiet = true := by
  rw [onWsClose]
  split_ifs with h1 h2 h3 <;>
    rcases hpc : s.avatarPeerConnection with _ | pc <;>
      refine ⟨?_, ?_, ?_, ?_⟩ <;>
        simp [cleanupAudioGraph_eq, List.all_append, Action.quiet, hpc,
          List.all_eq_true, List.mem_replicate] <;>
        (intro x _ hx; rcases hx with rfl | rfl <;> rfl)

lemma onWsError_frame (s : SessionState) :
    ((onWsError s).1.ws = s.ws ∨ (onWsError s).1.ws = none) ∧
    (onWsError s).1.metrics = s.metrics ∧
    (onWsError s).2.all Action.quiet = true := by
  rw [onWsError]
  split_ifs with h1 h2
  · simp
  · simp
  · obtain ⟨f1, f2, f3, f4, f5⟩ :=
      handleFatalError_frame ({ s with streamingEnabled := false }) "WebSocket エラーが発生しました"
    exact ⟨Or.inr f1, by rw [f4], f5⟩

lemma sessionReadyArm_frame (s : SessionState) :
    (sessionReadyArm s).1.ws = s.ws ∧
    (sessionReadyArm s).1.status = .ready ∧
    (sessionReadyArm s).1.closing = s.closing ∧
    (sessionReadyArm s).1.metrics = s.metrics ∧
    (sessionReadyArm s).2.all Action.quiet = true := by
  rw [sessionReadyArm]
  split_ifs <;> simp [Action.quiet]

lemma sessionErrorArm_frame (s : SessionState) (msg : Option String) :
    (sessionErrorArm s msg).1.ws = none ∧
    (sessionErrorArm s msg).1.status = .error ∧
    (sessionErrorArm s msg).1.closing = false ∧
    (sessionErrorArm s msg).1.metrics = s.metrics ∧
    (sessionErrorArm s msg).2.all Action.quiet = true := by
  rw [sessionErrorArm]
  split_ifs with hw
  · obtain ⟨f1, f2, f3, f4, f5⟩ :=
      handleFatalError_frame
        ({ s with streamingEnabled := false, workletStreaming := false }) (msg.getD "セッションエラー")
    exact ⟨f1, f2, f3, by rw [f4], by simp [f5, Action.quiet]⟩
  · obtain ⟨f1, f2, f3, f4, f5⟩ :=
      handleFatalError_frame ({ s with streamingEnabled := false }) (msg.getD "セッションエラー")
    exact ⟨f1, f2, f3, by rw [f4], f5⟩

lemma onWsOpen_connecting (s : SessionState) (h : s.ws = some .CONNECTING) :
    (onWsOpen s).1 =
      { appendLog (appendLog s .info "バックエンドと接続しました") .info "セッション設定を送信" with
          ws := some .OPEN } ∧
    (onWsOpen s).2 =
      [.wsSendJson (.sessionConfigure (sessionConfigurePayload s.sessionConfig))] := by
  rw [onWsOpen, h]
  exact ⟨rfl, rfl⟩

lemma onWsOpen_other (s : SessionState) (h : s.ws ≠ some .CONNECTING) :
    onWsOpen s = (s, []) := by
  rw [onWsOpen]
  rcases hws : s.ws with _ | w
  · rfl
  · cases w
    · exact absurd hws h
    · rfl

lemma handleServerAudio_frame (s : SessionState) (now : ℚ) (buffer : List ℕ) :
    (handleServerAudio s now buffer).1.ws = s.ws ∧
    (handleServerAudio s now buffer).1.status = s.status ∧
    (handleServerAudio s now buffer).1.closing = s.closing ∧
    (handleServerAudio s now buffer).1.metrics.sentAudioBytes = s.metrics.sentAudioBytes ∧
    (handleServerAudio s now buffer).1.metrics.responseCount = s.metrics.responseCount ∧
    (handleServerAudio s now buffer).1.metrics.receivedAudioBytes =
      s.metrics.receivedAudioBytes + recvBytes (handleServerAudio s now buffer).2 ∧
    (∀ a ∈ (handleServerAudio s now buffer).2,
      a.isSend = false ∧ a.isConfigure = false ∧ a.sentBytes = 0) := by
  rw [handleServerAudio]
  rcases hac : s.audioContext
  · rw [if_pos (by rfl)]
    simp [recvBytes]
  · rw [if_neg (by simp)]
    rcases hdec : decodePcm16 buffer with e | fd <;> simp only [hdec]
    · simp [recvBytes]
    · split_ifs with hfd
      · simp [recvBytes]
      · simp [recvBytes, updateMetrics, Action.recvBytes, Action.isSend,
          Action.isConfigure, Action.sentBytes]

lemma all_quiet_spec (l : List Action) (h : l.all Action.quiet = true) :
    sends l = [] ∧ sentBytes l = 0 ∧ recvBytes l = 0 := by
  induction l with
  | nil => simp [sends, sentBytes, recvBytes]
  | cons x xs ih =>
      rw [List.all_cons, Bool.and_eq_true] at h
      obtain ⟨h1, h2, h3, h4⟩ := Action.quiet_spec x h.1
      obtain ⟨i1, i2, i3⟩ := ih h.2
      refine ⟨?_, ?_, ?_⟩
      · simpa [sends, List.filter_cons, h1] using i1
      · simp [sentBytes, h3]
        simpa [sentBytes] using i2
      · simp [recvBytes, h4]
        simpa [recvBytes] using i3

lemma sentBytes_append (l₁ l₂ : List Action) :
    sentBytes (l₁ ++ l₂) = sentBytes l₁ + sentBytes l₂ := by
  simp [sentBytes]

lemma recvBytes_append (l₁ l₂ : List Action) :
    recvBytes (l₁ ++ l₂) = recvBytes l₁ + recvBytes l₂ := by
  simp [recvBytes]

lemma all_neutral_bytes (l : List Action) (h : l.all Action.neutral = true) :
    sentBytes l = 0 ∧ recvBytes l = 0 := by
  obtain ⟨h1, h2, -⟩ := all_neutral_spec l h
  exact ⟨h1, h2⟩

lemma sentBytes_eq_zero (l : List Action) (h : ∀ a ∈ l, a.sentBytes = 0) :
    sentBytes l = 0 := by
  induction l with
  | nil => rfl
  | cons x xs ih =>
      have hx := h x (List.mem_cons_self x xs)
      have hxs := ih fun a ha => h a (List.mem_cons_of_mem x ha)
      simp [sentBytes, List.map_cons, List.sum_cons, hx]
      simpa [sentBytes] using hxs

lemma stepFrame (s : SessionState) (ev : Ev) :
    (stepEv s ev).1.metrics.sentAudioBytes =
      s.metrics.sentAudioBytes + sentBytes (stepEv s ev).2 ∧
    (stepEv s ev).1.metrics.receivedAudioBytes =
      s.metrics.receivedAudioBytes + recvBytes (stepEv s ev).2 ∧
    s.metrics.responseCount ≤ (stepEv s ev).1.metrics.responseCount := by
  cases ev with
  | wsOpen =>
      simp only [stepEv]
      by_cases h : s.ws = some .CONNECTING
      · obtain ⟨h1, h2⟩ := onWsOpen_connecting s h
        rw [h1, h2]
        simp [sentBytes, recvBytes, Action.sentBytes, Action.recvBytes]
      · rw [onWsOpen_other s h]
        simp [sentBytes, recvBytes]
  | wsText msg now rtc =>
      simp only [stepEv]
      split_ifs with hws
      · simp [sentBytes, recvBytes]
      · cases msg with
        | sessionReady =>
            simp only [onWsText]
            obtain ⟨f1, f2, f3, f4, f5⟩ := sessionReadyArm_frame s
            obtain ⟨q1, q2, q3⟩ := all_quiet_spec _ f5
            rw [f4, q2, q3]
            simp
        | sessionLog level message =>
            simp [onWsText, sentBytes, recvBytes]
        | sessionEvent e =>
            simp only [onWsText]
            obtain ⟨f1, f2, f3, f4, f5, f6, f7⟩ := handleServerEvent_frame s e now rtc
            obtain ⟨b1, b2⟩ := all_neutral_bytes _ f7
            rw [f4, f5, b1, b2]
            exact ⟨by simp, by simp, f6⟩
        | sessionError m =>
            simp only [onWsText]
            obtain ⟨f1, f2, f3, f4, f5⟩ := sessionErrorArm_frame s m
            obtain ⟨q1, q2, q3⟩ := all_quiet_spec _ f5
            rw [f4, q2, q3]
            simp
        | unknownType t =>
            simp [onWsText, sentBytes, recvBytes]
  | wsBinary bytes now =>
      simp only [stepEv]
      split_ifs with hws
      · simp [sentBytes, recvBytes]
      · obtain ⟨f1, f2, f3, f4, f5, f6, f7⟩ :=
          handleServerAudio_frame
            (appendLog s .info ("バイナリデータ受信: " ++ toString bytes.length ++ "バイト"))
            now bytes
        refine ⟨?_, ?_, ?_⟩
        · rw [f4, sentBytes_eq_zero _ (fun a ha => (f7 a ha).2.2)]
          simp
        · rw [f6]
          simp
        · rw [f5]
          simp
  | wsErrorEvt =>
      simp only [stepEv]
      obtain ⟨f1, f2, f3⟩ := onWsError_frame s
      obtain ⟨q1, q2, q3⟩ := all_quiet_spec _ f3
      rw [f2, q2, q3]
      simp
  | wsCloseEvt code =>
      simp only [stepEv]
      obtain ⟨f1, f2, f3, f4⟩ := onWsClose_frame s
      obtain ⟨q1, q2, q3⟩ := all_quiet_spec _ f4
      rw [f3, q2, q3]
      simp
  | workletFrame n =>
      simp only [stepEv, onWorkletFrame]
      split_ifs with h
      · simp [updateMetrics, sentBytes, recvBytes, Action.sentBytes, Action.recvBytes]
      · simp [sentBytes, recvBytes]
  | pcIceCandidate c =>
      simp only [stepEv, onPcIceCandidate]
      rcases s.avatarPeerConnection with _ | pc
      · simp [sentBytes, recvBytes]
      · split_ifs <;>
          simp [sentBytes, recvBytes, Action.sentBytes, Action.recvBytes]
  | stopCall =>
      simp only [stepEv]
      by_cases h : s.closing = true
      · rw [stop_closing s h]
        simp [sentBytes, recvBytes]
      · obtain ⟨f1, f2, f3, f4, f5⟩ := stop_frame s (by simpa using h)
        obtain ⟨q1, q2, q3⟩ := all_quiet_spec _ f5
        rw [f4, q2, q3]
        simp


lemma run_metrics (evs : List Ev) : ∀ s : SessionState,
    (run s evs).1.metrics.sentAudioBytes =
      s.metrics.sentAudioBytes + sentBytes (run s evs).2 ∧
    (run s evs).1.metrics.receivedAudioBytes =
      s.metrics.receivedAudioBytes + recvBytes (run s evs).2 ∧
    s.metrics.responseCount ≤ (run s evs).1.metrics.responseCount := by
  induction evs with
  | nil =>
      intro s
      simp [run, sentBytes, recvBytes]
  | cons ev rest ih =>
      intro s
      obtain ⟨e1, e2, e3⟩ := stepFrame s ev
      obtain ⟨r1, r2, r3⟩ := ih (stepEv s ev).1
      simp only [run]
      refine ⟨?_, ?_, ?_⟩
      · rw [sentBytes_append, r1, e1]
        omega
      · rw [recvBytes_append, r2, e2]
        omega
      · exact le_trans e3 r3

/-- C2: the metrics triple is non-decreasing under every environment event,
the byte counters equal the cumulative sums of the individual frame sizes
carried by the trace (binary sends for sent-bytes, scheduled playback buffers
for received-bytes), `updateMetrics` only adds deltas to the previous value,
and `resetMetrics` — invoked by `start` — is the zero triple. -/
theorem metrics_monotone_and_cumulative :
    (∀ (s : SessionState) (ev : Ev), MetricsLe s.metrics (stepEv s ev).1.metrics) ∧
    (∀ (s : SessionState) (evs : List Ev),
      (run s evs).1.metrics.sentAudioBytes =
        s.metrics.sentAudioBytes + sentBytes (run s evs).2 ∧
      (run s evs).1.metrics.receivedAudioBytes =
        s.metrics.receivedAudioBytes + recvBytes (run s evs).2) ∧
    (∀ (m : LiveVoiceMetrics) (delta : MetricsDelta),
      MetricsLe m (updateMetrics m delta) ∧
      (updateMetrics m delta).sentAudioBytes =
        m.sentAudioBytes + delta.sentAudioBytes.getD 0 ∧
      (updateMetrics m delta).receivedAudioBytes =
        m.receivedAudioBytes + delta.receivedAudioBytes.getD 0 ∧
      (updateMetrics m delta).responseCount =
        m.responseCount + delta.responseCount.getD 0) ∧
    resetMetrics =
      ({ sentAudioBytes := 0, receivedAudioBytes := 0, responseCount := 0 } :
        LiveVoiceMetrics) ∧
    (∀ (s : SessionState) (config : LiveVoiceSessionConfig),
      (start s config).1.metrics = resetMetrics) := by
  refine ⟨?_, ?_, ?_, rfl, ?_⟩
  · intro s ev
    obtain ⟨e1, e2, e3⟩ := stepFrame s ev
    exact ⟨by omega, by omega, e3⟩
  · intro s evs
    obtain ⟨r1, r2, -⟩ := run_metrics evs s
    exact ⟨r1, r2⟩
  · intro m delta
    exact ⟨⟨by simp [updateMetrics], by simp [updateMetrics], by simp [updateMetrics]⟩,
      rfl, rfl, rfl⟩
  · intro s config
    rw [start]
    split_ifs <;> simp

lemma sends_eq_nil_of_no_send (l : List Action) (h : ∀ a ∈ l, a.isSend = false) :
    sends l = [] := by
  induction l with
  | nil => rfl
  | cons x xs ih =>
      have hx := h x (List.mem_cons_self x xs)
      have hxs := ih fun a ha => h a (List.mem_cons_of_mem x ha)
      simpa [sends, List.filter_cons, hx] using hxs

lemma sends_nonconfig_of_all_neutral (l : List Action)
    (h : l.all Action.neutral = true) :
    ∀ b ∈ sends l, b.isConfigure = false := by
  intro b hb
  have hbl : b ∈ l := List.mem_of_mem_filter hb
  rw [List.all_eq_true] at h
  exact (Action.neutral_spec b (h b hbl)).1

lemma configFirst_append_nonconfig (tr l : List Action) (h : ConfigFirst tr)
    (hl : ∀ b ∈ sends l, b.isConfigure = false)
    (hne : sends l ≠ [] → sends tr ≠ []) :
    ConfigFirst (tr ++ l) := by
  rw [ConfigFirst, sends_append]
  rcases hs : sends tr with _ | ⟨a, rest⟩
  · rcases hsl : sends l with _ | ⟨b, rl⟩
    · simp
    · exact absurd hs (hne (by simp [hsl]))
  · rw [ConfigFirst, hs] at h
    simp only [List.cons_append]
    refine ⟨h.1, ?_⟩
    intro b hb
    rcases List.mem_append.mp hb with hb | hb
    · exact h.2 b hb
    · exact hl b hb

lemma configFirst_of_single_config (tr l : List Action) (htr : sends tr = [])
    (p : SessionConfigurePayload)
    (hl : sends l = [Action.wsSendJson (.sessionConfigure p)]) :
    ConfigFirst (tr ++ l) := by
  rw [ConfigFirst, sends_append, htr, hl]
  simp [Action.isConfigure]

lemma handshakeInv_extend (s s' : SessionState) (tr l : List Action)
    (h : HandshakeInv s tr)
    (hws : s'.ws = s.ws ∨ s'.ws = none)
    (hl : ∀ b ∈ sends l, b.isConfigure = false)
    (hopen_only : sends l ≠ [] → s.ws = some .OPEN) :
    HandshakeInv s' (tr ++ l) := by
  obtain ⟨hc, hconn, hopen⟩ := h
  refine ⟨?_, ?_, ?_⟩
  · exact configFirst_append_nonconfig tr l hc hl fun hne => hopen (hopen_only hne)
  · intro hx
    rw [sends_append]
    rcases hws with hws | hws
    · rw [hws] at hx
      rcases hsl : sends l with _ | _
      · simp [hconn hx, hsl]
      · have := hopen_only (by simp [hsl])
        rw [this] at hx
        cases hx
    · rw [hws] at hx
      cases hx
  · intro hx
    rcases hws with hws | hws
    · rw [hws] at hx
      have := hopen hx
      rw [sends_append]
      intro hcon
      exact this (List.append_eq_nil.mp hcon).1
    · rw [hws] at hx
      cases hx

lemma handshakeInv_step (s : SessionState) (tr : List Action) (ev : Ev)
    (h : HandshakeInv s tr) :
    HandshakeInv (stepEv s ev).1 (tr ++ (stepEv s ev).2) := by
  cases ev with
  | wsOpen =>
      simp only [stepEv]
      by_cases hw : s.ws = some .CONNECTING
      · obtain ⟨h1, h2⟩ := onWsOpen_connecting s hw
        rw [h1, h2]
        refine ⟨?_, ?_, ?_⟩
        · exact configFirst_of_single_config tr _ (h.2.1 hw)
            (sessionConfigurePayload s.sessionConfig)
            (by simp [sends, Action.isSend, List.filter])
        · intro hx
          simp at hx
        · intro _
          rw [sends_append, h.2.1 hw]
          simp [sends, Action.isSend]
      · rw [onWsOpen_other s hw]
        exact handshakeInv_extend s s tr [] h (Or.inl rfl) (by simp [sends])
          (by simp [sends])
  | wsText msg now rtc =>
      simp only [stepEv]
      split_ifs with hws
      · exact handshakeInv_extend s s tr [] h (Or.inl rfl) (by simp [sends])
          (by simp [sends])
      · have hws' : s.ws = some .OPEN := by simpa using hws
        cases msg with
        | sessionReady =>
            simp only [onWsText]
            obtain ⟨f1, f2, f3, f4, f5⟩ := sessionReadyArm_frame s
            obtain ⟨q1, -, -⟩ := all_quiet_spec _ f5
            exact handshakeInv_extend s _ tr _ h (Or.inl f1)
              (by rw [q1]; intro b hb; cases hb) (fun _ => hws')
        | sessionLog level message =>
            simp only [onWsText]
            exact handshakeInv_extend s _ tr _ h (Or.inl (by simp))
              (by simp [sends]) (fun _ => hws')
        | sessionEvent e =>
            simp only [onWsText]
            obtain ⟨f1, f2, f3, f4, f5, f6, f7⟩ := handleServerEvent_frame s e now rtc
            exact handshakeInv_extend s _ tr _ h (Or.inl f1)
              (sends_nonconfig_of_all_neutral _ f7) (fun _ => hws')
        | sessionError m =>
            simp only [onWsText]
            obtain ⟨f1, f2, f3, f4, f5⟩ := sessionErrorArm_frame s m
            obtain ⟨q1, -, -⟩ := all_quiet_spec _ f5
            exact handshakeInv_extend s _ tr _ h (Or.inr f1)
              (by rw [q1]; intro b hb; cases hb) (fun _ => hws')
        | unknownType t =>
            simp only [onWsText]
            exact handshakeInv_extend s _ tr _ h (Or.inl (by simp))
              (by simp [sends]) (fun _ => hws')
  | wsBinary bytes now =>
      simp only [stepEv]
      split_ifs with hws
      · exact handshakeInv_extend s s tr [] h (Or.inl rfl) (by simp [sends])
          (by simp [sends])
      · have hws' : s.ws = some .OPEN := by simpa using hws
        obtain ⟨f1, f2, f3, f4, f5, f6, f7⟩ :=
          handleServerAudio_frame
            (appendLog s .info ("バイナリデータ受信: " ++ toString bytes.length ++ "バイト"))
            now bytes
        have hnil : sends (handleServerAudio
            (appendLog s .info ("バイナリデータ受信: " ++ toString bytes.length ++ "バイト"))
            now bytes).2 = [] :=
          sends_eq_nil_of_no_send _ fun a ha => (f7 a ha).1
        exact handshakeInv_extend s _ tr _ h (Or.inl (by rw [f1]; simp))
          (by rw [hnil]; intro b hb; cases hb) (fun _ => hws')
  | wsErrorEvt =>
      simp only [stepEv]
      obtain ⟨f1, f2, f3⟩ := onWsError_frame s
      obtain ⟨q1, -, -⟩ := all_quiet_spec _ f3
      exact handshakeInv_extend s _ tr _ h f1
        (by rw [q1]; intro b hb; cases hb) (fun hne => absurd q1 hne)
  | wsCloseEvt code =>
      simp only [stepEv]
      obtain ⟨f1, f2, f3, f4⟩ := onWsClose_frame s
      obtain ⟨q1, -, -⟩ := all_quiet_spec _ f4
      exact handshakeInv_extend s _ tr _ h (Or.inr f1)
        (by rw [q1]; intro b hb; cases hb) (fun hne => absurd q1 hne)
  | workletFrame n =>
      simp only [stepEv, onWorkletFrame]
      split_ifs with hg
      · exact handshakeInv_extend s _ tr _ h (Or.inl (by simp))
          (by intro b hb; simp [sends, Action.isSend, List.filter] at hb;
              rw [hb]; rfl)
          (fun _ => hg.2)
      · exact handshakeInv_extend s s tr [] h (Or.inl rfl) (by simp [sends])
          (by simp [sends])
  | pcIceCandidate c =>
      simp only [stepEv, onPcIceCandidate]
      rcases hpc : s.avatarPeerConnection with _ | pc
      · exact handshakeInv_extend s s tr [] h (Or.inl rfl) (by simp [sends])
          (by simp [sends])
      · split_ifs with hg
        · exact handshakeInv_extend s s tr _ h (Or.inl rfl)
            (by intro b hb; simp [sends, Action.isSend, List.filter] at hb;
                rw [hb]; rfl)
            (fun _ => hg)
        · exact handshakeInv_extend s s tr [] h (Or.inl rfl) (by simp [sends])
            (by simp [sends])
  | stopCall =>
      simp only [stepEv]
      by_cases hcl : s.closing = true
      · rw [stop_closing s hcl]
        exact handshakeInv_extend s s tr [] h (Or.inl rfl) (by simp [sends])
          (by simp [sends])
      · obtain ⟨f1, f2, f3, f4, f5⟩ := stop_frame s (by simpa using hcl)
        obtain ⟨q1, -, -⟩ := all_quiet_spec _ f5
        exact handshakeInv_extend s _ tr _ h (Or.inr f1)
          (by rw [q1]; intro b hb; cases hb) (fun hne => absurd q1 hne)

lemma handshakeInv_run (evs : List Ev) : ∀ (s : SessionState) (tr : List Action),
    HandshakeInv s tr → HandshakeInv (run s evs).1 (tr ++ (run s evs).2) := by
  induction evs with
  | nil =>
      intro s tr h
      simpa [run] using h
  | cons ev rest ih =>
      intro s tr h
      have h1 := handshakeInv_step s tr ev h
      have h2 := ih _ _ h1
      simpa [run, List.append_assoc] using h2


lemma start_ws (s : SessionState) (config : LiveVoiceSessionConfig) :
    (start s config).1.ws = some .CONNECTING := by
  rw [start]

/-- C7: for every session, the `session.configure` JSON message carrying the
full `SessionConfig` is the first message sent on the control channel — `start`
leaves the socket connecting with nothing sent, the open event sends exactly
the configure message, and along any subsequent event sequence the first
channel send is the configure message and no further configure message is ever
sent. -/
theorem configure_handshake_first :
    (∀ (s : SessionState) (config : LiveVoiceSessionConfig),
      (start s config).1.ws = some .CONNECTING ∧
      (start s config).1.sessionConfig = config) ∧
    (∀ s : SessionState, s.ws = some .CONNECTING →
      (stepEv s .wsOpen).2 =
        [.wsSendJson (.sessionConfigure (sessionConfigurePayload s.sessionConfig))] ∧
      (stepEv s .wsOpen).1.ws = some .OPEN) ∧
    (∀ (s : SessionState) (config : LiveVoiceSessionConfig) (evs : List Ev),
      ConfigFirst (run (start s config).1 evs).2) := by
  refine ⟨?_, ?_, ?_⟩
  · intro s config
    constructor
    · exact start_ws s config
    · rw [start]
      split_ifs <;> simp
  · intro s hws
    obtain ⟨h1, h2⟩ := onWsOpen_connecting s hws
    constructor
    · simpa [stepEv] using h2
    · simp only [stepEv]
      rw [h1]
  · intro s config evs
    have hinv : HandshakeInv (start s config).1 [] := by
      refine ⟨by rw [ConfigFirst]; simp [sends], fun _ => rfl, fun hx => ?_⟩
      rw [start_ws s config] at hx
      cases hx
    have h := handshakeInv_run evs (start s config).1 [] hinv
    simpa using h.1

/-- Witness for C7 at a concrete configuration and event sequence. -/
theorem configure_handshake_first_witness :
    (stepEv (start errorState sampleConfig).1 .wsOpen).2 =
      [.wsSendJson (.sessionConfigure
        (sessionConfigurePayload (start errorState sampleConfig).1.sessionConfig))] ∧
    ConfigFirst (run (start errorState sampleConfig).1
      [.wsOpen, .workletFrame 5]).2 :=
  ⟨(configure_handshake_first.2.1 (start errorState sampleConfig).1 (by decide)).1,
    configure_handshake_first.2.2 errorState sampleConfig [.wsOpen, .workletFrame 5]⟩

/-- C8 counterexample: an unrecognized `session.event` kind is logged at
severity `info` (the dispatcher default arm), not `warn` as the claim
requires, though it still performs no other state change or action. -/
theorem unknown_event_kind_level_counterexample :
    ((handleServerEvent liveState ({ event := some "totally.unknown" }) 0
      ({} : RtcOutcome)).1.logs.getLast?.map (fun e => e.level)) = some LogLevel.info ∧
    LogLevel.info ≠ LogLevel.warn ∧
    (handleServerEvent liveState ({ event := some "totally.unknown" }) 0
      ({} : RtcOutcome)).2 = [] := by
  refine ⟨by decide, by decide, by decide⟩

/-- C8 (amended): an unrecognized top-level wire message type is logged at
`warn` and is otherwise a no-op, while an unrecognized `session.event` kind is
logged at `info` and is otherwise a no-op — in both cases a log entry is
produced and no state, metric, or resource change occurs. -/
theorem unknown_wire_messages_logged :
    (∀ (s : SessionState) (t : String) (now : ℚ) (rtc : RtcOutcome),
      s.ws = some .OPEN →
      stepEv s (.wsText (.unknownType t) now rtc) =
        (appendLog s .warn ("未知のメッセージ: " ++ t), [])) ∧
    (∀ (s : SessionState) (event : ServerEventMsg) (e : String) (now : ℚ)
        (rtc : RtcOutcome),
      event.event = some e → e ∉ knownEventKinds → e ≠ "" →
      handleServerEvent s event now rtc =
        (appendLog s .info ("イベント: " ++ e), [])) := by
  constructor
  · intro s t now rtc hws
    rw [stepEv, if_neg (by simp [hws]), onWsText]
  · intro s event e now rtc hev hnotin hne
    have hk : ∀ k : String, k ∈ knownEventKinds → ¬ (event.event = some k) := by
      intro k hkmem h
      rw [hev, Option.some.injEq] at h
      exact hnotin (h ▸ hkmem)
    rw [handleServerEvent]
    rw [if_neg (hk _ (by simp [knownEventKinds]))]
    rw [if_neg (hk _ (by simp [knownEventKinds]))]
    rw [if_neg (hk _ (by simp [knownEventKinds]))]
    rw [if_neg (hk _ (by simp [knownEventKinds]))]
    rw [if_neg (hk _ (by simp [knownEventKinds]))]
    rw [if_neg (hk _ (by simp [knownEventKinds]))]
    rw [if_neg (hk _ (by simp [knownEventKinds]))]
    rw [if_neg (hk _ (by simp [knownEventKinds]))]
    rw [if_neg (hk _ (by simp [knownEventKinds]))]
    rw [if_neg (hk _ (by simp [knownEventKinds]))]
    rw [if_neg (hk _ (by simp [knownEventKinds]))]
    rw [if_neg (hk _ (by simp [knownEventKinds]))]
    rw [if_neg (hk _ (by simp [knownEventKinds]))]
    simp only [unknownEventArm, hev]
    rw [if_pos hne]

/-- Witness for C8 at concrete unknown messages. -/
theorem unknown_wire_messages_logged_witness :
    stepEv liveState (.wsText (.unknownType "bogus") 0 ({} : RtcOutcome)) =
      (appendLog liveState .warn ("未知のメッセージ: " ++ "bogus"), []) ∧
    handleServerEvent liveState ({ event := some "x.y" }) 0 ({} : RtcOutcome) =
      (appendLog liveState .info ("イベント: " ++ "x.y"), []) :=
  ⟨unknown_wire_messages_logged.1 liveState "bogus" 0 ({}) rfl,
   unknown_wire_messages_logged.2 liveState ({ event := some "x.y" }) "x.y" 0 ({})
     rfl (by decide) (by decide)⟩

/-- C9 counterexample: a failing `addIceCandidate` during avatar ICE handling
only logs a warning and leaves `AvatarStreamState` at `connecting` — it does
not set the avatar sub-session to `idle` as the claim requires. -/
theorem ice_failure_avatar_state_counterexample :
    liveState.avatarState = AvatarStreamState.connecting ∧
    (handleAvatarIceCandidate liveState (some ({ candidate := "cand" }))
      ({ addIceCandidateFails := true })).1.avatarState = AvatarStreamState.connecting ∧
    AvatarStreamState.connecting ≠ AvatarStreamState.idle ∧
    ((handleAvatarIceCandidate liveState (some ({ candidate := "cand" }))
      ({ addIceCandidateFails := true })).1.logs.getLast?.map (fun e => e.level)) =
      some LogLevel.warn := by
  refine ⟨by decide, by decide, by decide, by decide⟩

/-- C9 (amended): every avatar handler — session-updated, offer, answer, and
ICE — preserves the parent `SessionStatus` unconditionally; negotiation
failures during session-updated, offer, and answer handling set the avatar
sub-session state to `idle`; a failing ICE-candidate addition merely logs a
warning and skips the candidate. -/
theorem avatar_failures_scoped :
    (∀ (s : SessionState) (p : AvatarSessionInfoPayload) (rtc : RtcOutcome),
      (handleAvatarSessionUpdated s p rtc).1.status = s.status) ∧
    (∀ (s : SessionState) (p : Option AvatarSessionInfoPayload) (rtc : RtcOutcome),
      (handleAvatarOffer s p rtc).1.status = s.status) ∧
    (∀ (s : SessionState) (a : Option AvatarAnswerDescription) (rtc : RtcOutcome),
      (handleAvatarAnswer s a rtc).1.status = s.status) ∧
    (∀ (s : SessionState) (p : Option AvatarIceCandidatePayload) (rtc : RtcOutcome),
      (handleAvatarIceCandidate s p rtc).1.status = s.status) ∧
    (∀ (s : SessionState) (p : AvatarSessionInfoPayload) (rtc : RtcOutcome)
        (servers : List (Option AvatarIceServerPayload)),
      rtc.negotiationFails = true → p.iceServers = some servers → servers ≠ [] →
      s.ws = some .OPEN →
      (handleAvatarSessionUpdated s p rtc).1.avatarState = .idle) ∧
    (∀ (s : SessionState) (p : AvatarSessionInfoPayload) (rtc : RtcOutcome)
        (offer : AvatarOfferDescriptionPayload),
      rtc.negotiationFails = true → p.offer = some offer → strTruthy offer.sdp = true →
      s.ws = some .OPEN →
      (handleAvatarOffer s (some p) rtc).1.avatarState = .idle) ∧
    (∀ (s : SessionState) (a : Option AvatarAnswerDescription) (rtc : RtcOutcome)
        (pc : PeerConnection),
      rtc.negotiationFails = true → s.avatarPeerConnection = some pc →
      (handleAvatarAnswer s a rtc).1.avatarState = .idle) ∧
    (∀ (s : SessionState) (p : AvatarIceCandidatePayload) (rtc : RtcOutcome)
        (pc : PeerConnection),
      rtc.addIceCandidateFails = true → s.avatarPeerConnection = some pc →
      p.candidate ≠ "" →
      handleAvatarIceCandidate s (some p) rtc =
        (appendLog s .warn "アバター ICE candidate の追加に失敗しました", [])) := by
  refine ⟨?_, ?_, ?_, ?_, ?_, ?_, ?_, ?_⟩
  · intro s p rtc
    exact (handleAvatarSessionUpdated_frame s p rtc).2.1
  · intro s p rtc
    exact (handleAvatarOffer_frame s p rtc).2.1
  · intro s a rtc
    exact (handleAvatarAnswer_frame s a rtc).2.1
  · intro s p rtc
    exact (handleAvatarIceCandidate_frame s p rtc).2.1
  · intro s p rtc servers hfail hsrv hne hws
    rcases hpc : s.avatarPeerConnection with _ | pc <;>
      simp only [handleAvatarSessionUpdated, hsrv, cleanupAvatarConnection_eq] <;>
        split_ifs <;> simp_all
  · intro s p rtc offer hfail hoff hsdp hws
    rcases hpc : s.avatarPeerConnection with _ | pc <;>
      simp only [handleAvatarOffer, hoff, cleanupAvatarConnection_eq] <;>
        split_ifs <;> simp_all [cleanupAvatarConnection_eq]
  · intro s a rtc pc hfail hpc
    rcases a with _ | a <;> simp [handleAvatarAnswer, hpc, hfail]
  · intro s p rtc pc hfail hpc hne
    simp [handleAvatarIceCandidate, hpc, hfail, hne]

/-- Witness for C9 at concrete avatar failures. -/
theorem avatar_failures_scoped_witness :
    (handleAvatarAnswer liveState (some ({ type := "answer", sdp := "v=0" }))
      ({ negotiationFails := true })).1.avatarState = AvatarStreamState.idle ∧
    (handleAvatarSessionUpdated liveState
      ({ iceServers := some [some ({ urls := some (Sum.inl "turn:x") })] })
      ({ negotiationFails := true })).1.status = liveState.status ∧
    handleAvatarIceCandidate liveState (some ({ candidate := "cand" }))
      ({ addIceCandidateFails := true }) =
      (appendLog liveState .warn "アバター ICE candidate の追加に失敗しました", []) :=
  ⟨avatar_failures_scoped.2.2.2.2.2.2.1 liveState
      (some ({ type := "answer", sdp := "v=0" })) ({ negotiationFails := true })
      ({ }) rfl rfl,
   avatar_failures_scoped.1 liveState
      ({ iceServers := some [some ({ urls := some (Sum.inl "turn:x") })] })
      ({ negotiationFails := true }),
   avatar_failures_scoped.2.2.2.2.2.2.2 liveState ({ candidate := "cand" })
      ({ addIceCandidateFails := true }) ({ }) rfl rfl (by decide)⟩

/-- C4: an ICE candidate queued while no peer connection exists is dropped
when negotiation starts — `handleAvatarOffer` first runs
`cleanupAvatarConnection`, which clears the pending queue before the new peer
connection is created, so the previously queued candidate is never applied
(the created connection has an empty `applied` list) and the queue ends
empty. -/
theorem pending_candidate_dropped_on_negotiation :
    (run preNegotiationState [earlyIceCandidateEvent]).1.avatarCandidateQueue =
      [{ candidate := "cand1", sdpMid := none, sdpMLineIndex := none }] ∧
    (run preNegotiationState
        [earlyIceCandidateEvent, avatarOfferEvent]).1.avatarPeerConnection =
      some ({ configIceServers :=
                [{ urls := ["turn:x"], username := none, credential := none }],
              remoteDescriptionSet := true, localDescriptionSet := true,
              applied := [] }) ∧
    (run preNegotiationState
        [earlyIceCandidateEvent, avatarOfferEvent]).1.avatarCandidateQueue = [] := by
  refine ⟨by decide, by decide, by decide⟩

section DecodePcm16

lemma decodePcm16Aux_ok (bytes : List ℕ) (hb : ∀ b ∈ bytes, b < 256) (m : ℕ)
    (hm : bytes.length = 2 * m) :
    ∀ k i, i + k = m →
      ∃ samples, decodePcm16Aux bytes i = .ok samples ∧ samples.length = k ∧
        ∀ x ∈ samples, -1 ≤ x ∧ x < 1 := by
  intro k
  induction k with
  | zero =>
      intro i hi
      have him : i = m := by omega
      subst him
      have hcond : ¬ ((i : ℚ) < (bytes.length : ℚ) / 2) := by
        rw [hm, not_lt]
        rw [div_le_iff₀ (by norm_num : (0:ℚ) < 2)]
        exact_mod_cast (by omega : 2 * i ≤ i * 2)
      refine ⟨[], ?_, rfl, by simp⟩
      rw [decodePcm16Aux, dif_neg hcond]
  | succ k ih =>
      intro i hi
      have hi2 : 2 * i + 1 < bytes.length := by omega
      have hcond : (i : ℚ) < (bytes.length : ℚ) / 2 := by
        rw [hm, lt_div_iff₀ (by norm_num : (0:ℚ) < 2)]
        exact_mod_cast (by omega : i * 2 < 2 * m)
      have hlt0 : 2 * i < bytes.length := by omega
      have hb0 : bytes.get? (2 * i) = some (bytes.get ⟨2 * i, hlt0⟩) :=
        List.get?_eq_get hlt0
      have hb1 : bytes.get? (2 * i + 1) = some (bytes.get ⟨2 * i + 1, hi2⟩) :=
        List.get?_eq_get hi2
      set b0 := bytes.get ⟨2 * i, hlt0⟩ with hb0def
      set b1 := bytes.get ⟨2 * i + 1, hi2⟩ with hb1def
      have h0 : b0 < 256 := hb _ (List.get_mem bytes _ _)
      have h1 : b1 < 256 := hb _ (List.get_mem bytes _ _)
      have hframe : PCM_FRAME_SIZE * i = 2 * i := by norm_num [PCM_FRAME_SIZE]
      have hget : getInt16LE bytes (PCM_FRAME_SIZE * i) =
          some (if b0 + 256 * b1 < 32768 then ((b0 + 256 * b1 : ℕ) : ℤ)
                else ((b0 + 256 * b1 : ℕ) : ℤ) - 65536) := by
        rw [hframe, getInt16LE, hb0, hb1]
      obtain ⟨rest, hrest, hlen, hbound⟩ := ih (i + 1) (by omega)
      set v : ℤ := if b0 + 256 * b1 < 32768 then ((b0 + 256 * b1 : ℕ) : ℤ)
                else ((b0 + 256 * b1 : ℕ) : ℤ) - 65536 with hv
      have hvlo : -32768 ≤ v := by
        rw [hv]; split_ifs with h <;> omega
      have hvhi : v < 32768 := by
        rw [hv]; split_ifs with h <;> omega
      refine ⟨(v : ℚ) / 32768 :: rest, ?_, by simp [hlen], ?_⟩
      · rw [decodePcm16Aux, dif_pos hcond, hget, hrest]
      · intro x hx
        rcases List.mem_cons.mp hx with h | h
        · subst h
          constructor
          · rw [le_div_iff₀ (by norm_num : (0:ℚ) < 32768)]
            have : (-32768 : ℚ) ≤ (v : ℚ) := by exact_mod_cast hvlo
            linarith
          · rw [div_lt_one (by norm_num : (0:ℚ) < 32768)]
            exact_mod_cast hvhi
        · exact hbound x h

lemma decodePcm16Aux_err (bytes : List ℕ) (m : ℕ)
    (hm : bytes.length = 2 * m + 1) :
    ∀ k i, i + k = m → ∃ e, decodePcm16Aux bytes i = .error e := by
  intro k
  induction k with
  | zero =>
      intro i hi
      have him : i = m := by omega
      subst him
      have hcond : (i : ℚ) < (bytes.length : ℚ) / 2 := by
        rw [hm, lt_div_iff₀ (by norm_num : (0:ℚ) < 2)]
        exact_mod_cast (by omega : i * 2 < 2 * i + 1)
      have hframe : PCM_FRAME_SIZE * i = 2 * i := by norm_num [PCM_FRAME_SIZE]
      have hnone : bytes.get? (2 * i + 1) = none := by
        rw [List.get?_eq_none]
        omega
      have hget : getInt16LE bytes (PCM_FRAME_SIZE * i) = none := by
        rw [hframe, getInt16LE, hnone]
        rcases bytes.get? (2 * i) with _ | b <;> rfl
      refine ⟨"RangeError: offset is outside the bounds of the DataView", ?_⟩
      rw [decodePcm16Aux, dif_pos hcond, hget]
  | succ k ih =>
      intro i hi
      have hcond : (i : ℚ) < (bytes.length : ℚ) / 2 := by
        rw [hm, lt_div_iff₀ (by norm_num : (0:ℚ) < 2)]
        exact_mod_cast (by omega : i * 2 < 2 * m + 1)
      have hlt0 : 2 * i < bytes.length := by omega
      have hlt1 : 2 * i + 1 < bytes.length := by omega
      have hb0 : bytes.get? (2 * i) = some (bytes.get ⟨2 * i, hlt0⟩) :=
        List.get?_eq_get hlt0
      have hb1 : bytes.get? (2 * i + 1) = some (bytes.get ⟨2 * i + 1, hlt1⟩) :=
        List.get?_eq_get hlt1
      set b0 := bytes.get ⟨2 * i, hlt0⟩ with hb0def
      set b1 := bytes.get ⟨2 * i + 1, hlt1⟩ with hb1def
      have hframe : PCM_FRAME_SIZE * i = 2 * i := by norm_num [PCM_FRAME_SIZE]
      have hget : getInt16LE bytes (PCM_FRAME_SIZE * i) =
          some (if b0 + 256 * b1 < 32768 then ((b0 + 256 * b1 : ℕ) : ℤ)
                else ((b0 + 256 * b1 : ℕ) : ℤ) - 65536) := by
        rw [hframe, getInt16LE, hb0, hb1]
      obtain ⟨e, he⟩ := ih (i + 1) (by omega)
      refine ⟨e, ?_⟩
      rw [decodePcm16Aux, dif_pos hcond, hget, he]

end DecodePcm16

/-- C10: `decodePcm16` is total exactly on even-length buffers — on a buffer of
even byte length it returns `byteLength / 2` samples, each in the interval
`[-1, 1)`, and on a buffer of odd byte length it throws (the computed sample
count is not an integer, so the final two-byte read runs past the end of the
buffer) instead of returning a truncated result. -/
theorem decodePcm16_total_iff_even :
    (∀ bytes : List ℕ, (∀ b ∈ bytes, b < 256) → bytes.length % 2 = 0 →
      ∃ samples, decodePcm16 bytes = .ok samples ∧
        2 * samples.length = bytes.length ∧ ∀ x ∈ samples, -1 ≤ x ∧ x < 1) ∧
    (∀ bytes : List ℕ, bytes.length % 2 = 1 →
      ∃ e, decodePcm16 bytes = .error e) := by
  constructor
  · intro bytes hb he
    obtain ⟨m, hm⟩ : ∃ m, bytes.length = 2 * m := ⟨bytes.length / 2, by omega⟩
    obtain ⟨samples, h1, h2, h3⟩ := decodePcm16Aux_ok bytes hb m hm m 0 (by omega)
    exact ⟨samples, h1, by omega, h3⟩
  · intro bytes ho
    obtain ⟨m, hm⟩ : ∃ m, bytes.length = 2 * m + 1 := ⟨bytes.length / 2, by omega⟩
    exact decodePcm16Aux_err bytes m hm m 0 (by omega)

/-- Witness for C10: the two-byte buffer `[0x00, 0x80]` decodes to the single
sample `-1`, and the one-byte buffer `[0x00]` throws. -/
theorem decodePcm16_total_iff_even_witness :
    (∃ samples, decodePcm16 [0, 128] = .ok samples ∧
      2 * samples.length = ([0, 128] : List ℕ).length ∧
      ∀ x ∈ samples, -1 ≤ x ∧ x < 1) ∧
    (∃ e, decodePcm16 [0] = .error e) :=
  ⟨decodePcm16_total_iff_even.1 [0, 128] (by decide) (by decide),
    decodePcm16_total_iff_even.2 [0] (by decide)⟩

/-- C1: `stop` is an idempotent teardown — a second call while the `closing`
flag is set returns immediately without touching status, transport or
resources; a completed `stop` lands in `idle` with every resource released;
and a repeated `stop` performs no further teardown actions and leaves the
state unchanged except for the log ring. -/
theorem stop_idempotent_teardown :
    (∀ s : SessionState, s.closing = true → stop s = (s, [])) ∧
    (∀ s : SessionState, s.closing = false →
      (stop s).1.status = .idle ∧ (stop s).1.closing = false ∧
      (stop s).1.ws = none ∧ (stop s).1.audioContext = false ∧
      (stop s).1.mediaStream = false ∧ (stop s).1.sourceNode = false ∧
      (stop s).1.workletNode = false ∧ (stop s).1.inhaleGainNode = false ∧
      (stop s).1.playbackNodes = 0 ∧ (stop s).1.avatarPeerConnection = none ∧
      (stop s).1.avatarCandidateQueue = [] ∧ (stop s).1.avatarRemoteStream = false ∧
      (stop s).1.avatarState = .idle) ∧
    (∀ s : SessionState, s.closing = false →
      (stop (stop s).1).2 = [] ∧
      { (stop (stop s).1).1 with logs := [] } = { (stop s).1 with logs := [] }) := by
  refine ⟨?_, ?_, ?_⟩
  · intro s h
    simp [stop, h]
  · intro s h
    simp [stop, h, cleanupAudioGraph, cleanupAvatarConnection]
    split_ifs <;> simp_all [appendLog]
  · intro s h
    simp [stop, h, cleanupAudioGraph, cleanupAvatarConnection, appendLog]
    split_ifs <;> simp_all

/-- Witness for C1 at the live session state. -/
theorem stop_idempotent_teardown_witness :
    stop ({ liveState with closing := true }) = ({ liveState with closing := true }, []) ∧
    (stop liveState).1.status = .idle ∧
    (stop (stop liveState).1).2 = [] :=
  ⟨stop_idempotent_teardown.1 _ rfl,
   (stop_idempotent_teardown.2.1 liveState rfl).1,
   (stop_idempotent_teardown.2.2 liveState rfl).1⟩

/-- C3: a decoded playback buffer is scheduled at
`max(currentTime, playbackCursor)` and the cursor advances by exactly the
buffer's duration, so a buffer scheduled later without an intervening cursor
reset starts no earlier than the previous buffer's start plus its duration;
the `input.speech_started` barge-in stops every in-flight playback node and
resets the cursor to the current time. -/
theorem playback_nonoverlap :
    (∀ (s : SessionState) (now : ℚ) (buffer : List ℕ) (floatData : List ℚ),
      s.audioContext = true → decodePcm16 buffer = .ok floatData → floatData ≠ [] →
      (handleServerAudio s now buffer).1.playbackCursor =
          max now s.playbackCursor + (floatData.length : ℚ) / (TARGET_SAMPLE_RATE : ℚ) ∧
      (handleServerAudio s now buffer).2 =
          [.startPlayback (max now s.playbackCursor)
            ((floatData.length : ℚ) / (TARGET_SAMPLE_RATE : ℚ)) buffer.length]) ∧
    (∀ (s s' : SessionState) (nowA nowB : ℚ) (bufA bufB : List ℕ)
        (fdA fdB : List ℚ),
      s.audioContext = true → decodePcm16 bufA = .ok fdA → fdA ≠ [] →
      s'.playbackCursor = (handleServerAudio s nowA bufA).1.playbackCursor →
      s'.audioContext = true → decodePcm16 bufB = .ok fdB → fdB ≠ [] →
      max nowB s'.playbackCursor ≥
        max nowA s.playbackCursor + (fdA.length : ℚ) / (TARGET_SAMPLE_RATE : ℚ)) ∧
    (∀ (s : SessionState) (now : ℚ) (rtc : RtcOutcome),
      s.audioContext = true →
      (handleServerEvent s ({ event := some "input.speech_started" }) now
        rtc).1.playbackCursor = now ∧
      (handleServerEvent s ({ event := some "input.speech_started" }) now rtc).2 =
        List.replicate s.playbackNodes Action.stopPlaybackNode) := by
  refine ⟨?_, ?_, ?_⟩
  · intro s now buffer floatData hctx hdec hne
    simp [handleServerAudio, hctx, hdec, List.length_eq_zero, hne, updateMetrics, appendLog]
  · intro s s' nowA nowB bufA bufB fdA fdB hctx hdecA hneA hcur hctx' hdecB hneB
    have h1 : (handleServerAudio s nowA bufA).1.playbackCursor =
        max nowA s.playbackCursor + (fdA.length : ℚ) / (TARGET_SAMPLE_RATE : ℚ) := by
      simp [handleServerAudio, hctx, hdecA, List.length_eq_zero, hneA, appendLog]
    rw [hcur, h1]
    exact le_max_right _ _
  · intro s now rtc hctx
    simp [handleServerEvent, speechStartedArm, hctx, appendLog]

lemma decodePcm16_pair : decodePcm16 [0, 0] = .ok [0] := by
  norm_num [decodePcm16, decodePcm16Aux, getInt16LE, PCM_FRAME_SIZE]

lemma handleServerAudio_live_ctx :
    (handleServerAudio liveState 10 [0, 0]).1.audioContext = true := by
  simp [handleServerAudio, decodePcm16_pair, liveState]

/-- Witness for C3 at concrete buffers and times. -/
theorem playback_nonoverlap_witness :
    (handleServerAudio liveState 10 [0, 0]).1.playbackCursor =
      max 10 liveState.playbackCursor +
        ((([0] : List ℚ).length : ℚ)) / (TARGET_SAMPLE_RATE : ℚ) ∧
    max 3 ((handleServerAudio liveState 10 [0, 0]).1).playbackCursor ≥
      max 10 liveState.playbackCursor +
        ((([0] : List ℚ).length : ℚ)) / (TARGET_SAMPLE_RATE : ℚ) ∧
    (handleServerEvent liveState ({ event := some "input.speech_started" }) 7
      ({} : RtcOutcome)).1.playbackCursor = 7 :=
  ⟨(playback_nonoverlap.1 liveState 10 [0, 0] [0] rfl decodePcm16_pair (by decide)).1,
   playback_nonoverlap.2.1 liveState (handleServerAudio liveState 10 [0, 0]).1
     10 3 [0, 0] [0, 0] [0] [0] rfl decodePcm16_pair (by decide) rfl
     handleServerAudio_live_ctx decodePcm16_pair (by decide),
   (playback_nonoverlap.2.2 liveState 7 ({}) rfl).1⟩

/-- C5 counterexample: from the `error` state with the closing flag clear,
`stop` — which gates only on the closing flag, not on status — moves the state
machine to `idle`, so `start` is not the only operation that exits `error`. -/
theorem stop_exits_error_counterexample :
    errorState.status = SessionStatus.error ∧ errorState.closing = false ∧
    (stop errorState).1.status = SessionStatus.idle ∧
    SessionStatus.idle ≠ SessionStatus.error :=
  ⟨rfl, rfl, by decide, by decide⟩

/-- C5 (amended): with the transport already cleared in the `error` state,
every environment event other than a `stop` call preserves `error`; `stop`
with the closing flag clear resets the status to `idle`; `start` always moves
to `connecting`; and the `error`-implies-no-socket invariant is preserved by
every step, so these are the only two exits from `error`. -/
theorem error_exits_only_via_start_or_stop :
    (∀ (s : SessionState) (ev : Ev), s.status = .error → s.ws = none →
      ev ≠ .stopCall → (stepEv s ev).1.status = .error) ∧
    (∀ s : SessionState, s.status = .error → s.closing = false →
      (stop s).1.status = .idle) ∧
    (∀ (s : SessionState) (config : LiveVoiceSessionConfig),
      (start s config).1.status = .connecting) ∧
    (∀ (s : SessionState) (ev : Ev),
      (s.status = .error → s.ws = none) →
      (stepEv s ev).1.status = .error → (stepEv s ev).1.ws = none) := by
  refine ⟨?_, ?_, ?_, ?_⟩
  · intro s ev hst hws hne
    cases ev with
    | wsOpen =>
        rw [stepEv, onWsOpen_other s (by rw [hws]; simp)]
        exact hst
    | wsText msg now rtc =>
        rw [stepEv, if_pos (by rw [hws]; simp)]
        exact hst
    | wsBinary bytes now =>
        rw [stepEv, if_pos (by rw [hws]; simp)]
        exact hst
    | wsErrorEvt =>
        rw [stepEv, onWsError, if_pos hst]
        exact hst
    | wsCloseEvt code =>
        rw [stepEv, onWsClose, if_pos (by simpa using hst)]
        simpa using hst
    | workletFrame n =>
        rw [stepEv, onWorkletFrame]
        split_ifs <;> simpa using hst
    | pcIceCandidate c =>
        rw [stepEv, onPcIceCandidate]
        rcases s.avatarPeerConnection <;> try split_ifs <;> simpa using hst
    | stopCall => exact absurd rfl hne
  · intro s hst hcl
    exact (stop_frame s hcl).2.1
  · intro s config
    rw [start]
    split_ifs <;> simp
  · intro s ev hinv herr
    cases ev with
    | wsOpen =>
        by_cases hw : s.ws = some .CONNECTING
        · obtain ⟨h1, h2⟩ := onWsOpen_connecting s hw
          rw [stepEv, h1] at herr ⊢
          simp at herr ⊢
          rw [hinv (by simpa using herr)] at hw
          cases hw
        · rw [stepEv, onWsOpen_other s hw] at herr ⊢
          exact hinv herr
    | wsText msg now rtc =>
        by_cases hw : s.ws = some .OPEN
        · rw [stepEv, if_neg (by simp [hw])] at herr ⊢
          cases msg with
          | sessionReady =>
              obtain ⟨f1, f2, f3, f4, f5⟩ := sessionReadyArm_frame s
              rw [onWsText] at herr
              rw [f2] at herr
              cases herr
          | sessionLog level message =>
              rw [onWsText] at herr ⊢
              simp at herr ⊢
              rw [hinv herr] at hw
              cases hw
          | sessionEvent e =>
              obtain ⟨f1, f2, f3, f4, f5, f6, f7⟩ := handleServerEvent_frame s e now rtc
              rw [onWsText] at herr ⊢
              rw [f2] at herr
              rw [hinv herr] at hw
              cases hw
          | sessionError m =>
              obtain ⟨f1, f2, f3, f4, f5⟩ := sessionErrorArm_frame s m
              rw [onWsText] at herr ⊢
              exact f1
          | unknownType t =>
              rw [onWsText] at herr ⊢
              simp at herr ⊢
              rw [hinv herr] at hw
              cases hw
        · rw [stepEv, if_pos (by simpa using hw)] at herr ⊢
          exact hinv herr
    | wsBinary bytes now =>
        by_cases hw : s.ws = some .OPEN
        · rw [stepEv, if_neg (by simp [hw])] at herr ⊢
          obtain ⟨f1, f2, f3, f4, f5, f6, f7⟩ :=
            handleServerAudio_frame
              (appendLog s .info ("バイナリデータ受信: " ++ toString bytes.length ++ "バイト"))
              now bytes
          rw [f2] at herr
          simp at herr
          rw [hinv herr] at hw
          cases hw
        · rw [stepEv, if_pos (by simpa using hw)] at herr ⊢
          exact hinv herr
    | wsErrorEvt =>
        rw [stepEv, onWsError] at herr ⊢
        split_ifs at herr ⊢ with h1 h2
        · exact hinv herr
        · exact hinv herr
        · exact (handleFatalError_frame ({ s with streamingEnabled := false })
            "WebSocket エラーが発生しました").1
    | wsCloseEvt code =>
        rw [stepEv] at herr ⊢
        exact (onWsClose_frame s).1
    | workletFrame n =>
        rw [stepEv, onWorkletFrame] at herr ⊢
        split_ifs at herr ⊢ with h
        · simp at herr ⊢
          rw [hinv herr] at h
          simp at h
        · exact hinv herr
    | pcIceCandidate c =>
        rw [stepEv, onPcIceCandidate] at herr ⊢
        rcases hpc : s.avatarPeerConnection with _ | pc <;>
          simp only [hpc] at herr ⊢
        · exact hinv herr
        · split_ifs at herr ⊢ with h
          · exact absurd (hinv herr) (by rw [h]; simp)
          · exact hinv herr
    | stopCall =>
        rw [stepEv] at herr ⊢
        by_cases hcl : s.closing = true
        · rw [stop_closing s hcl] at herr ⊢
          exact hinv herr
        · obtain ⟨f1, f2, f3, f4, f5⟩ := stop_frame s (by simpa using hcl)
          exact f1

/-- Witness for C5 at the concrete error state. -/
theorem error_exits_only_via_start_or_stop_witness :
    (stepEv errorState .wsErrorEvt).1.status = SessionStatus.error ∧
    (stop errorState).1.status = SessionStatus.idle ∧
    (start errorState sampleConfig).1.status = SessionStatus.connecting ∧
    ((stepEv errorState Ev.wsOpen).1.status = SessionStatus.error →
      (stepEv errorState Ev.wsOpen).1.ws = none) :=
  ⟨error_exits_only_via_start_or_stop.1 errorState .wsErrorEvt rfl rfl (by decide),
   error_exits_only_via_start_or_stop.2.1 errorState rfl rfl,
   error_exits_only_via_start_or_stop.2.2.1 errorState sampleConfig,
   fun _ => error_exits_only_via_start_or_stop.2.2.2 errorState Ev.wsOpen
     (fun _ => rfl) (by decide)⟩

lemma occursBefore_of_mem_split (l₁ l₂ : List Action) (a b : Action)
    (ha : a ∈ l₁) (hb : b ∈ l₂) : occursBefore (l₁ ++ l₂) a b = true := by
  induction l₁ with
  | nil => cases ha
  | cons x xs ih =>
      rw [List.cons_append, occursBefore, Bool.or_eq_true]
      rcases List.mem_cons.mp ha with rfl | ha
      · left
        rw [Bool.and_eq_true, beq_self_eq_true]
        refine ⟨rfl, ?_⟩
        have : b ∈ xs ++ l₂ := List.mem_append.mpr (Or.inr hb)
        exact List.elem_eq_true_of_mem this
      · right
        exact ih ha

lemma occursBefore_append_left (l₀ l : List Action) (a b : Action)
    (h : occursBefore l a b = true) : occursBefore (l₀ ++ l) a b = true := by
  induction l₀ with
  | nil => exact h
  | cons x xs ih =>
      rw [List.cons_append, occursBefore, Bool.or_eq_true]
      exact Or.inr ih

/-- C6 counterexample: in the caller-initiated `stop` teardown from a live
session the transport close (`wsClose 1000`) is emitted strictly before the
avatar peer connection teardown, not after it as the claim requires. -/
theorem teardown_order_counterexample :
    (stop liveState).2.contains (Action.wsClose 1000) = true ∧
    (stop liveState).2.contains Action.closeAvatarPeerConnection = true ∧
    occursBefore (stop liveState).2 Action.closeAvatarPeerConnection
      (Action.wsClose 1000) = false ∧
    occursBefore (stop liveState).2 (Action.wsClose 1000)
      Action.closeAvatarPeerConnection = true := by
  refine ⟨by decide, by decide, by decide, by decide⟩

/-- C6 (amended): in every teardown sequence from a live session — caller
`stop`, fatal error, or remote close — the transport close (when one is
emitted) precedes the avatar teardown; within the resource cleanup the avatar
peer connection is torn down before the capture graph, and the worklet release
and streaming-disable signal both precede the microphone-track release. -/
theorem teardown_order_amended :
    ∀ s : SessionState, s.closing = false → s.ws = some WsReadyState.OPEN →
      s.avatarPeerConnection ≠ none → s.workletNode = true → s.mediaStream = true →
      s.status = .ready →
      (occursBefore (stop s).2 (Action.wsClose 1000)
        Action.closeAvatarPeerConnection = true ∧
       occursBefore (stop s).2 Action.closeAvatarPeerConnection
        Action.disconnectWorkletNode = true ∧
       occursBefore (stop s).2 Action.signalStreamingDisabled
        Action.stopMicTracks = true ∧
       occursBefore (stop s).2 Action.disconnectWorkletNode
        Action.stopMicTracks = true) ∧
      (occursBefore (handleFatalError s "x").2 (Action.wsClose 1011)
        Action.closeAvatarPeerConnection = true ∧
       occursBefore (handleFatalError s "x").2 Action.closeAvatarPeerConnection
        Action.disconnectWorkletNode = true ∧
       occursBefore (handleFatalError s "x").2 Action.signalStreamingDisabled
        Action.stopMicTracks = true) ∧
      (occursBefore (onWsClose s).2 Action.closeAvatarPeerConnection
        Action.disconnectWorkletNode = true ∧
       occursBefore (onWsClose s).2 Action.signalStreamingDisabled
        Action.stopMicTracks = true ∧
       occursBefore (onWsClose s).2 Action.disconnectWorkletNode
        Action.stopMicTracks = true) := by
  intro s hcl hws hpc hwn hms hst
  rcases hpc' : s.avatarPeerConnection with _ | pc
  · exact absurd hpc' hpc
  have htr : (stop s).2 =
      [Action.wsClose 1000] ++
        ([Action.closeAvatarPeerConnection] ++
          ((if s.avatarRemoteStream then [Action.stopAvatarRemoteTracks] else []) ++
            ([Action.disconnectWorkletNode, Action.signalStreamingDisabled] ++
              ((if s.sourceNode then [Action.releaseSourceNode] else []) ++
                ((if s.inhaleGainNode then [Action.releaseGainNode] else []) ++
                  (List.replicate s.playbackNodes Action.stopPlaybackNode ++
                    ([Action.stopMicTracks] ++
                      (if s.audioContext then [Action.closeAudioContext] else [])))))))) := by
    rw [stop, if_neg (by simp [hcl])]
    simp [cleanupAudioGraph_eq, hws, hpc', hwn, hms, List.append_assoc]
  have hfr : (handleFatalError s "x").2 =
      [Action.wsClose 1011] ++
        ([Action.closeAvatarPeerConnection] ++
          ((if s.avatarRemoteStream then [Action.stopAvatarRemoteTracks] else []) ++
            ([Action.disconnectWorkletNode, Action.signalStreamingDisabled] ++
              ((if s.sourceNode then [Action.releaseSourceNode] else []) ++
                ((if s.inhaleGainNode then [Action.releaseGainNode] else []) ++
                  (List.replicate s.playbackNodes Action.stopPlaybackNode ++
                    ([Action.stopMicTracks] ++
                      (if s.audioContext then [Action.closeAudioContext] else [])))))))) := by
    rw [handleFatalError]
    simp [cleanupAudioGraph_eq, hws, hpc', hwn, hms, List.append_assoc]
  have hcr : (onWsClose s).2 =
      [Action.closeAvatarPeerConnection] ++
        ((if s.avatarRemoteStream then [Action.stopAvatarRemoteTracks] else []) ++
          ([Action.disconnectWorkletNode, Action.signalStreamingDisabled] ++
            ((if s.sourceNode then [Action.releaseSourceNode] else []) ++
              ((if s.inhaleGainNode then [Action.releaseGainNode] else []) ++
                (List.replicate s.playbackNodes Action.stopPlaybackNode ++
                  ([Action.stopMicTracks] ++
                    (if s.audioContext then [Action.closeAudioContext] else []))))))) := by
    rw [onWsClose, if_neg (by simp [hst]), if_neg (by simp [hcl]), if_pos (by simp [hst])]
    simp [cleanupAudioGraph_eq, hpc', hwn, hms, List.append_assoc]
  refine ⟨⟨?_, ?_, ?_, ?_⟩, ⟨?_, ?_, ?_⟩, ⟨?_, ?_, ?_⟩⟩
  · rw [htr]
    exact occursBefore_of_mem_split _ _ _ _ (by simp) (by simp)
  · rw [htr]
    apply occursBefore_append_left
    exact occursBefore_of_mem_split _ _ _ _ (by simp) (by simp)
  · rw [htr]
    apply occursBefore_append_left
    apply occursBefore_append_left
    apply occursBefore_append_left
    exact occursBefore_of_mem_split _ _ _ _ (by simp) (by simp)
  · rw [htr]
    apply occursBefore_append_left
    apply occursBefore_append_left
    apply occursBefore_append_left
    exact occursBefore_of_mem_split _ _ _ _ (by simp) (by simp)
  · rw [hfr]
    exact occursBefore_of_mem_split _ _ _ _ (by simp) (by simp)
  · rw [hfr]
    apply occursBefore_append_left
    exact occursBefore_of_mem_split _ _ _ _ (by simp) (by simp)
  · rw [hfr]
    apply occursBefore_append_left
    apply occursBefore_append_left
    apply occursBefore_append_left
    exact occursBefore_of_mem_split _ _ _ _ (by simp) (by simp)
  · rw [hcr]
    exact occursBefore_of_mem_split _ _ _ _ (by simp) (by simp)
  · rw [hcr]
    apply occursBefore_append_left
    apply occursBefore_append_left
    exact occursBefore_of_mem_split _ _ _ _ (by simp) (by simp)
  · rw [hcr]
    apply occursBefore_append_left
    apply occursBefore_append_left
    exact occursBefore_of_mem_split _ _ _ _ (by simp) (by simp)

/-- Witness for C6 at the live session state. -/
theorem teardown_order_amended_witness :
    occursBefore (stop liveState).2 (Action.wsClose 1000)
      Action.closeAvatarPeerConnection = true ∧
    occursBefore (handleFatalError liveState "x").2 Action.signalStreamingDisabled
      Action.stopMicTracks = true ∧
    occursBefore (onWsClose liveState).2 Action.closeAvatarPeerConnection
      Action.disconnectWorkletNode = true :=
  ⟨((teardown_order_amended liveState rfl rfl (by decide) rfl rfl rfl).1).1,
   ((teardown_order_amended liveState rfl rfl (by decide) rfl rfl rfl).2.1).2.2,
   ((teardown_order_amended liveState rfl rfl (by decide) rfl rfl rfl).2.2).1⟩

end LiveVoice
